import Mathlib

/-!
# Verification of the ETL extraction-and-reconciliation core

This file is a shallow embedding, in Lean 4, of the extraction/merge core of the
ETL pipeline: `canonicalizer.py`, `deterministic_extractor.py` and
`result_merger.py`.  Python strings are modelled as `List Char` (Python strings
are sequences of Unicode code points, as are Lean `List Char` values); Python
floats holding confidence scores are modelled as exact rationals `ℚ` (only
order comparisons and sums of decimal constants are performed on them); Python
`re` patterns are modelled by a small backtracking matcher whose pattern values
transcribe, constructor by constructor, the regex literals of the source.

Definitions follow the source files closely; each definition's doc comment
names the Python function it embeds.
-/

/-- Python strings as lists of Unicode code points. -/
abbrev Str := List Char

/-- Python whitespace for `\s`, `str.split()`, `str.strip()` (the six ASCII
whitespace characters; the source only ever feeds ASCII whitespace to these). -/
def isPySpace (c : Char) : Bool :=
  c == ' ' || c == '\t' || c == '\n' || c == '\r' || c == '\x0b' || c == '\x0c'

/-- Python `\w` word characters (ASCII view). -/
def isWordChar (c : Char) : Bool :=
  c.isAlphanum || c == '_'

/-- ASCII uppercase letter, the regex class `[A-Z]`. -/
def isUpperAZ (c : Char) : Bool :=
  'A' ≤ c && c ≤ 'Z'

/-- ASCII letter, the regex class `[A-Za-z]`. -/
def isAlphaAZ (c : Char) : Bool :=
  ('A' ≤ c && c ≤ 'Z') || ('a' ≤ c && c ≤ 'z')

/-- Lowercasing a string, Python `str.lower()` (ASCII effective range; all
characters the source lowercases are ASCII or case-less). -/
def toLowerS (s : Str) : Str :=
  s.map Char.toLower

/-- Python `str.split()` with no argument: split on whitespace runs, no empty
fields. -/
def pySplit (s : Str) : List Str :=
  let f : Char → (List Str × Str) → (List Str × Str) := fun c acc =>
    if isPySpace c then
      (if acc.2.isEmpty then acc else (acc.2 :: acc.1, []))
    else (acc.1, c :: acc.2)
  let r := s.foldr f ([], [])
  if r.2.isEmpty then r.1 else r.2 :: r.1

/-- Python `'sep'.join(parts)` for a one-character separator. -/
def joinWith (sep : Str) (parts : List Str) : Str :=
  List.intercalate sep parts

/-- The composition `' '.join(s.split())`: collapse whitespace runs. -/
def collapseWs (s : Str) : Str :=
  joinWith [' '] (pySplit s)

/-- Python `str.split('\n')`: split on each newline, keeping empty fields
(`''.split('\n') == ['']`). -/
def splitOnNl (s : Str) : List Str :=
  let f : Char → List Str → List Str := fun c acc =>
    match acc with
    | [] => if c == '\n' then [[], []] else [[c]]
    | a :: rest => if c == '\n' then [] :: a :: rest else (c :: a) :: rest
  s.foldr f [[]]

/-- Python `str.lstrip(chars)`. -/
def lstripSet (set : List Char) (s : Str) : Str :=
  s.dropWhile (fun c => set.contains c)

/-- Python `str.rstrip(chars)`. -/
def rstripSet (set : List Char) (s : Str) : Str :=
  (s.reverse.dropWhile (fun c => set.contains c)).reverse

/-- Python `str.strip(chars)`. -/
def stripSet (set : List Char) (s : Str) : Str :=
  rstripSet set (lstripSet set s)

/-- Python `str.strip()` (whitespace). -/
def stripWs (s : Str) : Str :=
  (((s.dropWhile isPySpace).reverse).dropWhile isPySpace).reverse

/-- Python `str.find(sub)` returning the index of the first occurrence. -/
def findSubAux (sub : Str) (i : Nat) : Str → Option Nat
  | [] => if sub.isEmpty then some i else none
  | c :: rest =>
    if sub.isPrefixOf (c :: rest) then some i else findSubAux sub (i + 1) rest

/-- Python `s.find(sub)`, as an `Option` (Python returns `-1` on failure). -/
def findSub (s sub : Str) : Option Nat :=
  findSubAux sub 0 s

/-- Python `sub in s` substring test. -/
def isSubstr (sub s : Str) : Bool :=
  (findSub s sub).isSome

/-- Python `s.endswith(t)`. -/
def endsWithS (s t : Str) : Bool :=
  t.isSuffixOf s

/-- Python `s.startswith(t)`. -/
def startsWithS (s t : Str) : Bool :=
  t.isPrefixOf s

/-- Python `str.islower()`: at least one cased character and no cased character
is uppercase (ASCII view of casedness, enough for the terms validated here). -/
def isLowerS (s : Str) : Bool :=
  s.any (fun c => c.isAlpha) && s.all (fun c => !c.isUpper)

/-- Python `str.isdigit()`: nonempty and all digits. -/
def isDigitS (s : Str) : Bool :=
  !s.isEmpty && s.all Char.isDigit

/-! ## A small backtracking regex matcher

Patterns are sequences of items.  An item consumes characters through a
character predicate (single, optional, greedy or lazy repetition), an optional
or alternated literal word, or is zero-width (lookahead, `$`, a trailing
`\b`).  `matchS`/`matchSeqS` return the list of possible remainders of the
input **in Python backtracking priority order** (greedy alternatives longest
first, lazy ones shortest first, alternation in written order), so the head of
the list corresponds to the match `re` would return.  Leading `\b` is handled at
scan level (the scanner knows the previous character). -/

/-- Character predicate: a pattern character matched case-insensitively
(`re.IGNORECASE`). -/
def ciChar (a : Char) : Char → Bool := fun c => c.toLower == a.toLower

/-- Character predicate: a pattern character matched case-sensitively. -/
def csChar (a : Char) : Char → Bool := fun c => c == a

/-- A literal word as a predicate sequence, case-insensitively. -/
def wordCI (s : String) : List (Char → Bool) :=
  s.data.map ciChar

/-- A literal word as a predicate sequence, case-sensitively. -/
def wordCS (s : String) : List (Char → Bool) :=
  s.data.map csChar

/-- Simple (character-consuming) pattern items. -/
inductive SPat where
  /-- one character of the class -/
  | one (p : Char → Bool)
  /-- `X?` -/
  | opt (p : Char → Bool)
  /-- `X*` greedy -/
  | star (p : Char → Bool)
  /-- `X*?` lazy -/
  | lazyStar (p : Char → Bool)
  /-- `X+` greedy -/
  | plus (p : Char → Bool)
  /-- `X+?` lazy -/
  | lazyPlus (p : Char → Bool)
  /-- `X{lo,hi}` greedy -/
  | rep (p : Char → Bool) (lo hi : Nat)
  /-- `(?:word)?`: optional literal sequence, greedy -/
  | optWord (cs : List (Char → Bool))
  /-- `(a|b|…)`: alternation of literal sequences, tried in written order -/
  | alt (cs : List (List (Char → Bool)))

/-- Match a literal predicate sequence, returning the remainder. -/
def matchWord : List (Char → Bool) → Str → Option Str
  | [], s => some s
  | _ :: _, [] => none
  | p :: ps, c :: rest => if p c then matchWord ps rest else none

/-- Remainders of `s` after consuming between `lo` and `k` characters, longest
consumption first (greedy order). -/
def dropsDesc (s : Str) (lo k : Nat) : List Str :=
  (List.range (k + 1 - lo)).map (fun i => s.drop (k - i))

/-- Remainders of `s` after consuming between `lo` and `k` characters, shortest
consumption first (lazy order). -/
def dropsAsc (s : Str) (lo k : Nat) : List Str :=
  (List.range (k + 1 - lo)).map (fun i => s.drop (lo + i))

/-- Length of the maximal run of `p`-characters at the front of `s`. -/
def runLen (p : Char → Bool) (s : Str) : Nat :=
  (s.takeWhile p).length

/-- All remainders a simple item can leave, in backtracking priority order. -/
def matchS : SPat → Str → List Str
  | .one _, [] => []
  | .one p, c :: rest => if p c then [rest] else []
  | .opt _, [] => [[]]
  | .opt p, c :: rest => if p c then [rest, c :: rest] else [c :: rest]
  | .star p, s => dropsDesc s 0 (runLen p s)
  | .lazyStar p, s => dropsAsc s 0 (runLen p s)
  | .plus p, s => if runLen p s == 0 then [] else dropsDesc s 1 (runLen p s)
  | .lazyPlus p, s => if runLen p s == 0 then [] else dropsAsc s 1 (runLen p s)
  | .rep p lo hi, s =>
    let k := min hi (runLen p s)
    if k < lo then [] else dropsDesc s lo k
  | .optWord cs, s =>
    match matchWord cs s with
    | some r => [r, s]
    | none => [s]
  | .alt cs, s => cs.filterMap (fun a => matchWord a s)

/-- Remainders after a sequence of simple items, priority order. -/
def matchSeqS : List SPat → Str → List Str
  | [], s => [s]
  | p :: ps, s => (matchS p s).flatMap (matchSeqS ps)

/-- Pattern items, possibly zero-width. -/
inductive Pat where
  /-- a simple, character-consuming item -/
  | s (sp : SPat)
  /-- `(?=A|B|…)` lookahead over sequences of simple items; `allowEnd` adds the
  alternative `\Z` (end of input) -/
  | ahead (alts : List (List SPat)) (allowEnd : Bool)
  /-- `$` without `re.MULTILINE`: end of input, or just before a final newline -/
  | dollar
  /-- `\b` placed after a word character: the next character is not a word
  character (or the input ends) -/
  | noWordAhead
  /-- the fragment `(?:\n[X]+)*?` of the first term/definition pattern: a lazy
  star whose body is a newline followed by a greedy `[X]+` -/
  | nlRuns (q : Char → Bool)

/-- Remainders of the lazy star `(?:\n[X]+)*?`: zero iterations first; each
iteration consumes the newline and a nonempty `q`-run (greedy within the
iteration).  `fuel` bounds the number of iterations; every iteration consumes
at least one character, so `s.length + 1` fuel is always enough. -/
def nlRunsRems (q : Char → Bool) : Nat → Str → List Str
  | 0, s => [s]
  | fuel + 1, s =>
    s :: (match s with
      | '\n' :: rest =>
        if runLen q rest == 0 then []
        else (dropsDesc rest 1 (runLen q rest)).flatMap (nlRunsRems q fuel)
      | _ => [])

/-- All remainders a pattern item can leave, in priority order. -/
def matchP : Pat → Str → List Str
  | .s sp, str => matchS sp str
  | .ahead alts allowEnd, str =>
    if alts.any (fun a => !(matchSeqS a str).isEmpty) || (allowEnd && str.isEmpty)
    then [str] else []
  | .dollar, str => if str.isEmpty || str == ['\n'] then [str] else []
  | .noWordAhead, str =>
    match str with
    | [] => [[]]
    | c :: rest => if isWordChar c then [] else [c :: rest]
  | .nlRuns q, str => nlRunsRems q (str.length + 1) str

/-- Remainders after a full pattern, priority order. -/
def matchSeqP : List Pat → Str → List Str
  | [], s => [s]
  | p :: ps, s => (matchP p s).flatMap (matchSeqP ps)

/-- Whether the pattern matches at the current position. -/
def canMatch (ps : List Pat) (s : Str) : Bool :=
  !(matchSeqP ps s).isEmpty

/-- Python `re.match`: anchored match at the start. -/
def reMatchStart (ps : List Pat) (s : Str) : Bool :=
  canMatch ps s

/-- Python `re.search` as a Boolean: try every position left to right
(including the end-of-input position). -/
def searchAux (ps : List Pat) : Str → Bool
  | [] => canMatch ps []
  | c :: rest => canMatch ps (c :: rest) || searchAux ps rest

/-- Python `re.search(pattern, s) is not None` for a pattern without a leading
`\b`. -/
def reSearch (ps : List Pat) (s : Str) : Bool :=
  searchAux ps s

/-- Scanner state for a leading `\b`: the position qualifies when there is no
previous character or it is not a word character (all patterns used with a
leading `\b` begin with a word character, so the other side of the boundary is
checked by the pattern itself). -/
def wbOk : Option Char → Bool
  | none => true
  | some c => !isWordChar c

/-- Python `re.search` for a pattern with a leading `\b`. -/
def searchWBAux (ps : List Pat) (prev : Option Char) : Str → Bool
  | [] => wbOk prev && canMatch ps []
  | c :: rest => (wbOk prev && canMatch ps (c :: rest)) || searchWBAux ps (some c) rest

/-- Python `re.search(...) is not None` for a pattern whose regex begins with
`\b`. -/
def reSearchWB (ps : List Pat) (s : Str) : Bool :=
  searchWBAux ps none s

/-- Position of the first match, Python `re.search(...).start()`. -/
def searchPosAux (ps : List Pat) (i : Nat) : Str → Option Nat
  | [] => if canMatch ps [] then some i else none
  | c :: rest =>
    if canMatch ps (c :: rest) then some i else searchPosAux ps (i + 1) rest

/-- Python `re.search(...).start()` as an `Option`. -/
def searchPos (ps : List Pat) (s : Str) : Option Nat :=
  searchPosAux ps 0 s

/-- First match text of the pattern at this position (the backtracking-priority
match), with the number of characters consumed. -/
def matchHere (ps : List Pat) (s : Str) : Option (Str × Nat) :=
  match (matchSeqP ps s).head? with
  | some rem =>
    let consumed := s.length - rem.length
    some (s.take consumed, consumed)
  | none => none

/-- Python `re.finditer` (worker, structurally recursive on `fuel`): collect
the matched texts (`group(0)`) of the non-overlapping, leftmost-first matches.
`requireWB` implements a leading `\b`.  Every pattern fed to this scanner
consumes at least one character, so a zero-length match is treated as no match
(Python would yield an empty match and also advance).  Each step consumes at
least one character of `s`, so `s.length + 1` fuel always completes the scan. -/
def findIterAux (requireWB : Bool) (ps : List Pat) :
    Nat → Option Char → Str → List Str
  | 0, _, _ => []
  | _ + 1, _, [] => []
  | fuel + 1, prev, c :: rest =>
    let ok := !requireWB || wbOk prev
    match (if ok then matchHere ps (c :: rest) else none) with
    | some (t, consumed) =>
      if consumed == 0 then findIterAux requireWB ps fuel (some c) rest
      else
        t :: findIterAux requireWB ps fuel (t.getLast? <|> prev)
          ((c :: rest).drop consumed)
    | none => findIterAux requireWB ps fuel (some c) rest

/-- Python `re.finditer`, returning the matched texts. -/
def findIter (requireWB : Bool) (ps : List Pat) (prev : Option Char) (s : Str) :
    List Str :=
  findIterAux requireWB ps (s.length + 1) prev s

/-- Python `re.sub(pattern, repl, s)` (worker, structurally recursive on
`fuel`): scan left to right, replace non-overlapping matches.  The patterns
fed to this function cannot match the empty string; a zero-length match is
skipped.  `s.length + 1` fuel always completes the scan. -/
def subAllAux (ps : List Pat) (repl : Str) : Nat → Str → Str
  | 0, s => s
  | _ + 1, [] => []
  | fuel + 1, c :: rest =>
    match matchHere ps (c :: rest) with
    | some (_, consumed) =>
      if consumed == 0 then c :: subAllAux ps repl fuel rest
      else repl ++ subAllAux ps repl fuel ((c :: rest).drop consumed)
    | none => c :: subAllAux ps repl fuel rest

/-- Python `re.sub(pattern, repl, s)`. -/
def subAll (ps : List Pat) (repl : Str) (s : Str) : Str :=
  subAllAux ps repl (s.length + 1) s

/-! Shorthand constructors for pattern items. -/

/-- One character of a class. -/
def p1 (q : Char → Bool) : Pat := .s (.one q)

/-- Optional character. -/
def pOpt (q : Char → Bool) : Pat := .s (.opt q)

/-- Greedy star. -/
def pStar (q : Char → Bool) : Pat := .s (.star q)

/-- Greedy plus. -/
def pPlus (q : Char → Bool) : Pat := .s (.plus q)

/-- Bounded repetition. -/
def pRep (q : Char → Bool) (lo hi : Nat) : Pat := .s (.rep q lo hi)

/-- Case-insensitive literal, one item per character. -/
def pLitCI (s : String) : List Pat :=
  s.data.map (fun a => p1 (ciChar a))

/-- Case-sensitive literal, one item per character. -/
def pLitCS (s : String) : List Pat :=
  s.data.map (fun a => p1 (csChar a))

/-! ## Canonicalizer (`canonicalizer.py`) -/

/-- Regex `Federal Decree[- ]?(?:by )?Law` (searched with `re.IGNORECASE`),
the first entry of `Canonicalizer.doc_type_patterns`. -/
def docTypePat1 : List Pat :=
  pLitCI ("Federal Decree") ++ [pOpt (fun c => c == '-' || c == ' '),
    .s (.optWord (wordCI ("by ")))] ++ pLitCI ("Law")

/-- Regex `Decree[- ]?Law`, the second entry of `doc_type_patterns`. -/
def docTypePat2 : List Pat :=
  pLitCI ("Decree") ++ [pOpt (fun c => c == '-' || c == ' ')] ++ pLitCI ("Law")

/-- Regex `Federal Law`, the third entry of `doc_type_patterns`. -/
def docTypePat3 : List Pat :=
  pLitCI ("Federal Law")

/-- Regex `Cabinet Resolution`, the fourth entry of `doc_type_patterns`. -/
def docTypePat4 : List Pat :=
  pLitCI ("Cabinet Resolution")

/-- Regex `Ministerial Resolution`, the fifth entry of `doc_type_patterns`. -/
def docTypePat5 : List Pat :=
  pLitCI ("Ministerial Resolution")

/-- Regex `Federal Decree`, the sixth entry of `doc_type_patterns`. -/
def docTypePat6 : List Pat :=
  pLitCI ("Federal Decree")

/-- The part of `No\.?\s*\(?(\d+)\)?` before the capture group. -/
def numPatPre : List Pat :=
  pLitCI ("No") ++ [pOpt (csChar '.'), pStar isPySpace, pOpt (csChar '(')]

/-- Group 1 of the first match of `No\.?\s*\(?(\d+)\)?` (`re.IGNORECASE`) at
this position: the greedy digits after the prefix.  The trailing `\)?` is
optional and cannot fail, so it affects neither success nor the group. -/
def matchNumAt (s : Str) : Option Str :=
  (((matchSeqP numPatPre s).flatMap (fun r0 =>
    (matchS (.plus Char.isDigit) r0).map (fun r1 =>
      r0.take (r0.length - r1.length))))).head?

/-- Leftmost match of the number pattern, Python
`re.search(r'No\.?\s*\(?(\d+)\)?', ...).group(1)`. -/
def findNumber : Str → Option Str
  | [] => matchNumAt []
  | c :: rest =>
    match matchNumAt (c :: rest) with
    | some g => some g
    | none => findNumber rest

/-- The part of `of\s+(\d{4})` before the capture group. -/
def yearPatPre : List Pat :=
  pLitCI ("of") ++ [pPlus isPySpace]

/-- Group 1 of a match of `of\s+(\d{4})` (`re.IGNORECASE`) at this position:
exactly four digits after `of` and whitespace. -/
def matchYearAt (s : Str) : Option Str :=
  ((matchSeqP yearPatPre s).filterMap (fun r0 =>
    (matchWord (List.replicate 4 (fun c => c.isDigit)) r0).map (fun _ =>
      r0.take 4))).head?

/-- Leftmost match of the year pattern, Python
`re.search(r'of\s+(\d{4})', ...).group(1)`. -/
def findYear : Str → Option Str
  | [] => matchYearAt []
  | c :: rest =>
    match matchYearAt (c :: rest) with
    | some g => some g
    | none => findYear rest

/-- `Canonicalizer.canonicalize_citation`: the document type is the canonical
tag of the first `doc_type_patterns` entry (in insertion order of the Python
dict) whose regex matches anywhere; the number defaults to `0` and the year to
`0000`; the result is `{type}_{number}_{year}`. -/
def canonicalizeCitation (citation_text : Str) : Str :=
  let doc_type :=
    if reSearch docTypePat1 citation_text then ("fed_decree_law").data
    else if reSearch docTypePat2 citation_text then ("fed_decree_law").data
    else if reSearch docTypePat3 citation_text then ("federal_law").data
    else if reSearch docTypePat4 citation_text then ("cabinet_resolution").data
    else if reSearch docTypePat5 citation_text then ("ministerial_resolution").data
    else if reSearch docTypePat6 citation_text then ("federal_decree").data
    else ("unknown").data
  let number := (findNumber citation_text).getD (("0").data)
  let year := (findYear citation_text).getD (("0000").data)
  doc_type ++ ('_' :: number) ++ ('_' :: year)

/-- The regex `-\s*\n\s*` of `normalize_term`/`normalize_definition`
(hyphenated line break). -/
def hyphenNlPat : List Pat :=
  [p1 (csChar '-'), pStar isPySpace, p1 (csChar '\n'), pStar isPySpace]

/-- The characters of `rstrip(':.,;-—–')` and `lstrip(':.,;-—–')` in
`normalize_term`. -/
def termPunct : List Char :=
  [':', '.', ',', ';', '-', '—', '–']

/-- The characters of `strip('"\'""''')` in `normalize_term`. -/
def quoteChars : List Char :=
  ['"', '\'', '“', '”', '‘', '’']

/-- `Canonicalizer.normalize_term`, step for step: remove hyphenated line
breaks, fold newlines to spaces, collapse whitespace, strip punctuation from
both ends, strip quotes, drop a leading `The `, and trim. -/
def normalizeTerm (term : Str) : Str :=
  let n1 := subAll hyphenNlPat [] term
  let n2 := n1.map (fun c => if c == '\n' then ' ' else c)
  let n3 := collapseWs n2
  let n4 := rstripSet termPunct n3
  let n5 := lstripSet termPunct n4
  let n6 := stripSet quoteChars n5
  let n7 := if startsWithS n6 (("The ").data) then n6.drop 4 else n6
  stripWs n7

/-- The characters of `lstrip(':,;-—–')` in `normalize_definition`. -/
def defLeadPunct : List Char :=
  [':', ',', ';', '-', '—', '–']

/-- The characters of `rstrip(',;:')` in `normalize_definition`. -/
def defTrailPunct : List Char :=
  [',', ';', ':']

/-- `Canonicalizer.normalize_definition`, step for step: remove hyphenated
line breaks, collapse whitespace, strip leading punctuation, strip trailing
commas/semicolons/colons, trim, and append a period when the result is over 20
characters and does not already end in `.`, `!` or `?`. -/
def normalizeDefinition (definition : Str) : Str :=
  let n1 := subAll hyphenNlPat [] definition
  let n2 := collapseWs n1
  let n3 := lstripSet defLeadPunct n2
  let n4 := rstripSet defTrailPunct n3
  let n5 := stripWs n4
  if !n5.isEmpty && !(([('.' : Char), '!', '?']).contains (n5.getLastD ' ')) then
    if 20 < n5.length then n5 ++ ['.'] else n5
  else n5

/-! ## Data models (`models.py`)

`Page.layout_info` is an opaque metadata dictionary never read by the modelled
code and is omitted; `Citation.context`/`position` and
`Definition.references`/`position` keep their defaults throughout the modelled
code paths and are omitted as well.  Confidences are exact rationals. -/

/-- `models.Page`. -/
structure Page where
  page_num : Int
  text : String
deriving DecidableEq

/-- `models.Citation`. -/
structure Citation where
  text : String
  canonical_id : String
  page : Int
  confidence : ℚ
  extraction_method : String
deriving DecidableEq

/-- `models.Definition`. -/
structure Definition where
  term : String
  definition : String
  page : Int
  confidence : ℚ
  extraction_method : String
deriving DecidableEq

/-! ## ResultMerger (`result_merger.py`)

`ResultMerger._calculate_similarity` dispatches to an embedding backend, to
`fuzzywuzzy`, or to exact lowercase comparison, whichever is available.  The
merge and dedup functions are therefore parametrised by the similarity oracle
`sim`; `simpleSimilarity` below is the code's own last-resort backend. -/

/-- The last-resort branch of `ResultMerger._calculate_similarity` (no
embeddings, no fuzzywuzzy): `1.0` when the lowercased texts are equal, else
`0.0`. -/
def simpleSimilarity (text1 text2 : String) : ℚ :=
  if toLowerS text1.data == toLowerS text2.data then 1 else 0

/-- `ResultMerger._has_citation_overlap`: overlap through equal canonical id or
text similarity above `0.85`. -/
def hasCitationOverlap (sim : String → String → ℚ) (citation : Citation)
    (existing : List Citation) : Bool :=
  existing.any (fun exist =>
    citation.canonical_id == exist.canonical_id
      || decide ((0.85 : ℚ) < sim citation.text exist.text))

/-- State of the loop in `ResultMerger._deduplicate_citations`: the `unique`
list and the `seen_ids` set. -/
structure DedupState where
  unique : List Citation
  seen_ids : Finset String

/-- One iteration of the loop in `ResultMerger._deduplicate_citations`: skip a
citation whose canonical id was already seen; otherwise look for the first
accumulated citation with text similarity above `0.85` and keep the
higher-confidence one (`list.remove` deletes the first equal element, here the
found one); otherwise append. -/
def dedupStep (sim : String → String → ℚ) (st : DedupState) (cit : Citation) :
    DedupState :=
  if cit.canonical_id ∈ st.seen_ids then st
  else
    match st.unique.find? (fun existing =>
        decide ((0.85 : ℚ) < sim cit.text existing.text)) with
    | some existing =>
      if existing.confidence < cit.confidence then
        ⟨(st.unique.erase existing) ++ [cit],
          insert cit.canonical_id (st.seen_ids.erase existing.canonical_id)⟩
      else st
    | none => ⟨st.unique ++ [cit], insert cit.canonical_id st.seen_ids⟩

/-- `ResultMerger._deduplicate_citations`. -/
def deduplicateCitations (sim : String → String → ℚ)
    (citations : List Citation) : List Citation :=
  (citations.foldl (dedupStep sim) ⟨[], ∅⟩).unique

/-- Stable insertion of `a` into a sorted list: `a` goes before the first
element `b` with `le a b`. -/
def insertStable (le : Citation → Citation → Bool) (a : Citation) :
    List Citation → List Citation
  | [] => [a]
  | b :: l => if le a b then a :: b :: l else b :: insertStable le a l

/-- Stable sort.  Python `list.sort(key=..., reverse=True)` is a stable sort,
and the output of a stable sort is uniquely determined by the key order, so
stable insertion sort models it exactly. -/
def sortStable (le : Citation → Citation → Bool) : List Citation → List Citation
  | [] => []
  | a :: l => insertStable le a (sortStable le l)

/-- `ResultMerger.merge_citations`: start from the deterministic list, append
the AI citations that do not overlap the accumulated list, deduplicate, then
sort by confidence descending (stable). -/
def mergeCitations (sim : String → String → ℚ)
    (deterministic ai_enhanced : List Citation) : List Citation :=
  let merged := ai_enhanced.foldl (fun acc ai_cit =>
    if hasCitationOverlap sim ai_cit acc then acc else acc ++ [ai_cit])
    deterministic
  let merged := deduplicateCitations sim merged
  sortStable (fun a b => b.confidence ≤ a.confidence) merged

/-! ## DeterministicExtractor (`deterministic_extractor.py`): citation side -/

/-- The regex class `[- ]`. -/
def dashSpace : Char → Bool := fun c => c == '-' || c == ' '

/-- The regex class `[−–—•]` (bullet characters). -/
def bulletChar : Char → Bool := fun c => c == '−' || c == '–' || c == '—' || c == '•'

/-- The regex class `[^.;]`. -/
def notDotSemi : Char → Bool := fun c => !(c == '.' || c == ';')

/-- The fragment `No\.?\s*\(?\d+\)?` shared by the citation patterns. -/
def fragNo : List Pat :=
  pLitCI ("No") ++ [pOpt (csChar '.'), pStar isPySpace, pOpt (csChar '('),
    pPlus Char.isDigit, pOpt (csChar ')')]

/-- The fragment `\s+\(?\d+\)?` (number without `No`). -/
def fragBareNum : List Pat :=
  [pPlus isPySpace, pOpt (csChar '('), pPlus Char.isDigit, pOpt (csChar ')')]

/-- The fragment `\s+of\s+\d{4}`. -/
def fragOfYear : List Pat :=
  [pPlus isPySpace] ++ pLitCI ("of") ++ [pPlus isPySpace, pRep Char.isDigit 4 4]

/-- The fragment `,?\s+as\s+amended`. -/
def fragAsAmended : List Pat :=
  [pOpt (csChar ','), pPlus isPySpace] ++ pLitCI ("as") ++ [pPlus isPySpace] ++
    pLitCI ("amended")

/-- `DeterministicExtractor.citation_patterns` in source order, each entry a
transcription of one regex literal (all searched with
`re.IGNORECASE | re.MULTILINE`; no pattern uses `^`/`$`, so `MULTILINE` is
inert). -/
def citationPatterns : List (List Pat) :=
  [ -- Federal Decree[- ]?Law No\.?\s*\(?\d+\)?\s+of\s+\d{4}[^.;]*
    pLitCI ("Federal Decree") ++ [pOpt dashSpace] ++ pLitCI ("Law ") ++ fragNo ++
      fragOfYear ++ [pStar notDotSemi],
    -- Federal Decree[- ]?Law\s+\(?\d+\)?\s+of\s+\d{4}[^.;]*
    pLitCI ("Federal Decree") ++ [pOpt dashSpace] ++ pLitCI ("Law") ++ fragBareNum ++
      fragOfYear ++ [pStar notDotSemi],
    -- Federal Decree by Law No\.?\s*\(?\d+\)?\s+of\s+\d{4}[^.;]*
    pLitCI ("Federal Decree by Law ") ++ fragNo ++ fragOfYear ++ [pStar notDotSemi],
    -- Federal Decree by Law\s+\(?\d+\)?\s+of\s+\d{4}[^.;]*
    pLitCI ("Federal Decree by Law") ++ fragBareNum ++ fragOfYear ++ [pStar notDotSemi],
    -- Cabinet Resolution No\.?\s*\(?\d+\)?\s+of\s+\d{4}[^.;]*
    pLitCI ("Cabinet Resolution ") ++ fragNo ++ fragOfYear ++ [pStar notDotSemi],
    -- Cabinet Resolution\s+\(?\d+\)?\s+of\s+\d{4}[^.;]*
    pLitCI ("Cabinet Resolution") ++ fragBareNum ++ fragOfYear ++ [pStar notDotSemi],
    -- Federal Law No\.?\s*\(?\d+\)?\s+of\s+\d{4}[^.;]*
    pLitCI ("Federal Law ") ++ fragNo ++ fragOfYear ++ [pStar notDotSemi],
    -- Federal Law\s+\(?\d+\)?\s+of\s+\d{4}[^.;]*
    pLitCI ("Federal Law") ++ fragBareNum ++ fragOfYear ++ [pStar notDotSemi],
    -- Federal Law No\.?\s*\(?\d+\)?\s+Issuing[^.;]*
    pLitCI ("Federal Law ") ++ fragNo ++ [pPlus isPySpace] ++ pLitCI ("Issuing") ++
      [pStar notDotSemi],
    -- Federal Law No\.?\s*\(?\d+\)?\s+Promulgating[^.;]*
    pLitCI ("Federal Law ") ++ fragNo ++ [pPlus isPySpace] ++ pLitCI ("Promulgating") ++
      [pStar notDotSemi],
    -- Ministerial Resolution No\.?\s*\(?\d+\)?\s+of\s+\d{4}[^.;]*
    pLitCI ("Ministerial Resolution ") ++ fragNo ++ fragOfYear ++ [pStar notDotSemi],
    -- Ministerial Decision No\.?\s*\(?\d+\)?\s+of\s+\d{4}[^.;]*
    pLitCI ("Ministerial Decision ") ++ fragNo ++ fragOfYear ++ [pStar notDotSemi],
    -- Federal Decree[- ]?Law No\.?\s*\(?\d+\)?\s+of\s+\d{4},?\s+as\s+amended
    pLitCI ("Federal Decree") ++ [pOpt dashSpace] ++ pLitCI ("Law ") ++ fragNo ++
      fragOfYear ++ fragAsAmended,
    -- Federal Decree by Law No\.?\s*\(?\d+\)?\s+of\s+\d{4},?\s+as\s+amended
    pLitCI ("Federal Decree by Law ") ++ fragNo ++ fragOfYear ++ fragAsAmended,
    -- Cabinet Resolution No\.?\s*\(?\d+\)?\s+of\s+\d{4},?\s+as\s+amended
    pLitCI ("Cabinet Resolution ") ++ fragNo ++ fragOfYear ++ fragAsAmended,
    -- Federal Law No\.?\s*\(?\d+\)?\s+of\s+\d{4},?\s+as\s+amended
    pLitCI ("Federal Law ") ++ fragNo ++ fragOfYear ++ fragAsAmended,
    -- [−–—•]\s*Federal Decree[- ]?Law No\.?\s*\(?\d+\)?\s+of\s+\d{4}[^.;]*
    [p1 bulletChar, pStar isPySpace] ++ pLitCI ("Federal Decree") ++ [pOpt dashSpace] ++
      pLitCI ("Law ") ++ fragNo ++ fragOfYear ++ [pStar notDotSemi],
    -- [−–—•]\s*Federal Decree by Law No\.?\s*\(?\d+\)?\s+of\s+\d{4}[^.;]*
    [p1 bulletChar, pStar isPySpace] ++ pLitCI ("Federal Decree by Law ") ++ fragNo ++
      fragOfYear ++ [pStar notDotSemi],
    -- [−–—•]\s*Cabinet Resolution No\.?\s*\(?\d+\)?\s+of\s+\d{4}[^.;]*
    [p1 bulletChar, pStar isPySpace] ++ pLitCI ("Cabinet Resolution ") ++ fragNo ++
      fragOfYear ++ [pStar notDotSemi],
    -- [−–—•]\s*Federal Law No\.?\s*\(?\d+\)?\s+of\s+\d{4}[^.;]*
    [p1 bulletChar, pStar isPySpace] ++ pLitCI ("Federal Law ") ++ fragNo ++
      fragOfYear ++ [pStar notDotSemi],
    -- Decree[- ]?Law No\.?\s*\(?\d+\)?\s+of\s+\d{4}[^.;]*
    pLitCI ("Decree") ++ [pOpt dashSpace] ++ pLitCI ("Law ") ++ fragNo ++
      fragOfYear ++ [pStar notDotSemi],
    -- Federal Decree[- ]?Law No\.?\s*\(?\d+\)?\s+of\s+\d{4}\s+(Regarding|Concerning|on)[^.;]*
    pLitCI ("Federal Decree") ++ [pOpt dashSpace] ++ pLitCI ("Law ") ++ fragNo ++
      fragOfYear ++ [pPlus isPySpace,
        .s (.alt [wordCI ("Regarding"), wordCI ("Concerning"), wordCI ("on")]),
        pStar notDotSemi],
    -- Cabinet Resolution No\.?\s*\(?\d+\)?\s+of\s+\d{4}\s+(Regarding|Concerning|on)[^.;]*
    pLitCI ("Cabinet Resolution ") ++ fragNo ++ fragOfYear ++ [pPlus isPySpace,
        .s (.alt [wordCI ("Regarding"), wordCI ("Concerning"), wordCI ("on")]),
        pStar notDotSemi] ]

/-- `re.sub(r'^[−–—•]\s*', '', text)`: the anchored pattern can only match at
the start, removing one bullet and the following whitespace run. -/
def cleanStartBullet (text : Str) : Str :=
  match text with
  | c :: rest => if bulletChar c then rest.dropWhile isPySpace else c :: rest
  | [] => []

/-- Regex `;\s*and\s*$` (`re.IGNORECASE`). -/
def semiAndPat : List Pat :=
  [p1 (csChar ';'), pStar isPySpace] ++ pLitCI ("and") ++ [pStar isPySpace, Pat.dollar]

/-- Regex `;\s*$`. -/
def semiEndPat : List Pat :=
  [p1 (csChar ';'), pStar isPySpace, Pat.dollar]

/-- Regex `No\.\s*\(` (case-sensitive). -/
def noParenPat : List Pat :=
  pLitCS ("No.") ++ [pStar isPySpace, p1 (csChar '(')]

/-- Regex `\)\s*of\s*` (case-sensitive). -/
def parenOfPat : List Pat :=
  [p1 (csChar ')'), pStar isPySpace] ++ pLitCS ("of") ++ [pStar isPySpace]

/-- `DeterministicExtractor._clean_citation_text`. -/
def cleanCitationText (text : Str) : Str :=
  let t := collapseWs text
  let t := cleanStartBullet t
  let t := rstripSet [',', ';', ':'] t
  let t := subAll semiAndPat [] t
  let t := subAll semiEndPat [] t
  let t := subAll noParenPat (("No. (").data) t
  let t := subAll parenOfPat ((") of ").data) t
  t

/-- Signal `re.search(r'\(\d+\)', text)`: a parenthesised number. -/
def hasParenNumber (text : Str) : Bool :=
  reSearch [p1 (csChar '('), pPlus Char.isDigit, p1 (csChar ')')] text

/-- Signal `re.search(r'\d{4}', text)`: four consecutive digits. -/
def hasYearDigits (text : Str) : Bool :=
  reSearch [pRep Char.isDigit 4 4] text

/-- Signal `re.search(r'concerning|on|regarding', text, re.IGNORECASE)`. -/
def hasLinkWord (text : Str) : Bool :=
  reSearch [Pat.s (.alt [wordCI ("concerning"), wordCI ("on"), wordCI ("regarding")])]
    text

/-- The arithmetic skeleton of
`DeterministicExtractor._calculate_citation_confidence`: base `0.85`, `+0.05`
per signal, capped by `min(confidence, 1.0)`. -/
def confidenceFromSignals (b1 b2 b3 : Bool) : ℚ :=
  let confidence : ℚ := 0.85
  let confidence := if b1 then confidence + 0.05 else confidence
  let confidence := if b2 then confidence + 0.05 else confidence
  let confidence := if b3 then confidence + 0.05 else confidence
  min confidence 1.0

/-- `DeterministicExtractor._calculate_citation_confidence`. -/
def calculateCitationConfidence (text : Str) : ℚ :=
  confidenceFromSignals (hasParenNumber text) (hasYearDigits text) (hasLinkWord text)

/-! ## DeterministicExtractor: structural validation -/

/-- The `sentence_starters` set of `_is_noun_phrase` (Rule 1). -/
def sentenceStarters : List Str :=
  [("whereas").data, ("therefore").data, ("however").data, ("moreover").data,
   ("furthermore").data, ("nevertheless").data, ("accordingly").data,
   ("consequently").data, ("hence").data, ("thus").data, ("when").data,
   ("where").data, ("while").data, ("although").data, ("though").data,
   ("unless").data, ("if").data, ("because").data, ("since").data, ("as").data,
   ("after").data, ("before").data, ("until").data]

/-- The `verb_ings` set of `_is_noun_phrase` (Rule 2). -/
def verbIngs : List Str :=
  [("notifying").data, ("providing").data, ("submitting").data, ("issuing").data,
   ("establishing").data, ("creating").data, ("forming").data, ("making").data,
   ("taking").data, ("giving").data, ("receiving").data, ("sending").data,
   ("filing").data, ("requesting").data, ("requiring").data, ("ensuring").data,
   ("determining").data, ("calculating").data, ("processing").data,
   ("reviewing").data, ("approving").data]

/-- The determiner list of Rules 2b, 2c and 3. -/
def determinerWords : List Str :=
  [("the").data, ("any").data, ("all").data, ("each").data, ("every").data,
   ("some").data]

/-- The second-word list of Rule 2c. -/
def detSecondWords : List Str :=
  [("other").data, ("following").data, ("such").data, ("said").data,
   ("aforementioned").data]

/-- The noun list of Rule 3. -/
def fragmentNouns : List Str :=
  [("person").data, ("persons").data, ("authority").data, ("authorities").data]

/-- The preposition chains of Rule 4. -/
def prepositionChains : List Str :=
  [("of the").data, ("to the").data, ("by the").data, ("for the").data,
   ("in the").data, ("on the").data, ("at the").data]

/-- The modal list of Rule 5. -/
def modalWords : List Str :=
  [(" shall ").data, (" must ").data, (" may ").data, (" should ").data,
   (" would ").data, (" could ").data, (" will ").data]

/-- The sentence endings of Rule 7. -/
def sentenceEndings : List Str :=
  [("as follows").data, ("otherwise").data, ("the following").data,
   ("shall be").data, ("as amended").data]

/-- The preposition endings of Rule 7. -/
def prepositionEndings : List Str :=
  [(" of").data, (" to").data, (" by").data, (" for").data, (" in").data,
   (" on").data, (" at").data, (" with").data, (" from").data]

/-- The generic document words of Rule 9. -/
def genericWords : List Str :=
  [("article").data, ("chapter").data, ("section").data, ("part").data,
   ("clause").data, ("paragraph").data, ("procedures").data,
   ("regulations").data, ("resolution").data, ("decree").data, ("law").data,
   ("cabinet").data, ("constitution").data]

/-- The incomplete-phrase endings of Rule 13. -/
def incompleteEndings : List Str :=
  [(" the").data, (" a").data, (" an").data, (" this").data, (" that").data,
   (" these").data, (" those").data]

/-- The last-word stop list of Rule 16. -/
def lastWordStops : List Str :=
  [("the").data, ("a").data, ("an").data, ("of").data, ("to").data,
   ("for").data, ("in").data, ("on").data, ("at").data, ("by").data,
   ("with").data, ("from").data, ("and").data, ("or").data]

/-- The `problematic_compounds` list of Rule 17. -/
def problematicCompounds : List Str :=
  [("Fine Assessment Stockpiler").data, ("Fine Assessment").data,
   ("Number (TRN)").data]

/-- The allowed continuations after `Assessment` of Rule 19. -/
def assessmentContinuations : List Str :=
  [("Number").data, ("Date").data, ("Period").data, ("Amount").data]

/-- Regex `\b(article|chapter|section|part|clause|paragraph)\s*\(?\d+\)?` of
Rule 8, searched on the lowercased term. -/
def structKeywordPat : List Pat :=
  [Pat.s (.alt [wordCS ("article"), wordCS ("chapter"), wordCS ("section"),
      wordCS ("part"), wordCS ("clause"), wordCS ("paragraph")]),
   pStar isPySpace, pOpt (csChar '('), pPlus Char.isDigit, pOpt (csChar ')')]

/-- Regex `\barticle\s+(shall|must|may|should|will)` of Rule 8, searched on the
lowercased term. -/
def articleModalPat : List Pat :=
  pLitCS ("article") ++ [pPlus isPySpace,
    Pat.s (.alt [wordCS ("shall"), wordCS ("must"), wordCS ("may"),
      wordCS ("should"), wordCS ("will")])]

/-- Regex `\b(moa|aoa)\s+of\s+the\b` of Rule 10, searched on the lowercased
term (the trailing `\b` follows the word character `e`). -/
def moaPat : List Pat :=
  [Pat.s (.alt [wordCS ("moa"), wordCS ("aoa")]), pPlus isPySpace] ++
    pLitCS ("of") ++ [pPlus isPySpace] ++ pLitCS ("the") ++ [Pat.noWordAhead]

/-- `DeterministicExtractor._is_noun_phrase`, rule for rule.  The Python
function is a chain of early `return False` checks; it is transcribed as the
same chain of conditionals. -/
def isNounPhrase (term : Str) : Bool :=
  let term_lower := toLowerS term
  let words := pySplit term
  match words with
  | [] => false
  | w0 :: _ =>
    let first_word := toLowerS w0
    -- Rule 1: sentence connectors never start noun phrases
    if sentenceStarters.contains first_word then false
    -- Rule 2: known verb gerund at the start
    else if endsWithS first_word (("ing").data) && 6 < first_word.length &&
        verbIngs.contains first_word then false
    -- Rule 2b: single-word determiner
    else if words.length == 1 && determinerWords.contains first_word then false
    -- Rule 2c: two-word determiner phrase
    else if words.length == 2 && determinerWords.contains first_word &&
        detSecondWords.contains (toLowerS (words.getD 1 [])) then false
    -- Rule 3: determiner + common noun + preposition chain
    else if determinerWords.contains first_word && 1 < words.length &&
        fragmentNouns.contains (toLowerS (words.getD 1 [])) && 3 < words.length &&
        (isSubstr ((" of ").data) term_lower || isSubstr ((" to ").data) term_lower ||
          isSubstr ((" by ").data) term_lower) then false
    -- Rule 4: two or more preposition chains
    else if 2 ≤ (prepositionChains.filter (fun prep => isSubstr prep term_lower)).length
      then false
    -- Rule 5: modal verbs
    else if modalWords.any (fun modal => isSubstr modal term_lower) then false
    -- Rule 6: conjunction plus semicolon
    else if isSubstr (("; and").data) term_lower || isSubstr ((";and").data) term_lower
      then false
    -- Rule 7: sentence-like endings, dangling prepositions
    else if sentenceEndings.any (fun e => endsWithS term_lower e) then false
    else if prepositionEndings.any (fun e => endsWithS term_lower e) then false
    -- Rule 8: document structure keywords
    else if reSearchWB structKeywordPat term_lower then false
    else if reSearchWB articleModalPat term_lower then false
    -- Rule 9: generic document word
    else if genericWords.contains term_lower then false
    -- Rule 10: incomplete abbreviation
    else if reSearchWB moaPat term_lower then false
    -- Rule 11: very short all-lowercase fragments
    else if term.length ≤ 4 && isLowerS term then false
    -- Rule 12: all-lowercase term
    else if isLowerS term then false
    -- Rule 13: incomplete-phrase markers at the end
    else if incompleteEndings.any (fun e => endsWithS term_lower e) then false
    -- Rule 14: ends with "provided for the" (the non-ending branch only passes)
    else if endsWithS term_lower (("provided for the").data) then false
    -- Rule 15: only digits after removing spaces and parentheses
    else if isDigitS (term.filter (fun c => !(c == ' ' || c == '(' || c == ')')))
      then false
    -- Rule 16: last word is an article/preposition/conjunction
    else if 1 < words.length &&
        lastWordStops.contains (toLowerS (words.getLastD [])) then false
    -- Rule 17: known problematic compounds
    else if problematicCompounds.contains term then false
    -- Rule 18: bare "Administrative"
    else if term == ("Administrative").data then false
    -- Rule 19: "Assessment" followed by another capitalised word
    else if isSubstr (("Assessment").data) term && 2 < words.length &&
        0 < words.count (("Assessment").data) &&
        (words.findIdx (fun w => w == ("Assessment").data)) < words.length - 1 &&
        ((words.getD ((words.findIdx (fun w => w == ("Assessment").data)) + 1) []).headD
            ' ').isUpper &&
        !assessmentContinuations.contains
          (words.getD ((words.findIdx (fun w => w == ("Assessment").data)) + 1) [])
      then false
    else true

/-- `DeterministicExtractor._is_valid_definition`: reject definitions starting
with preamble boilerplate, bare article references or citations (all three are
anchored `re.match` tests with `re.IGNORECASE`). -/
def isValidDefinition (definition : Str) : Bool :=
  if reMatchStart [Pat.s (.alt [wordCI ("Having reviewed"), wordCI ("And based on"),
      wordCI ("Hereby resolves"), wordCI ("The Cabinet"),
      wordCI ("Upon the proposal")])] definition then false
  else if reMatchStart [Pat.s (.alt [wordCI ("Article"), wordCI ("Chapter"),
      wordCI ("Section")]), pPlus isPySpace, pPlus Char.isDigit] definition then false
  else if reMatchStart [Pat.s (.alt [wordCI ("Cabinet Resolution"),
      wordCI ("Federal Decree"), wordCI ("Federal Law")])] definition then false
  else true

/-- `DeterministicExtractor._is_valid_term_definition`: length gates
(`len(term) < 2`, `len(definition) < 5`, `len(term) > 60`,
`len(definition) > 2000` all reject), then the noun-phrase and definition
checks. -/
def isValidTermDefinition (term definition : Str) : Bool :=
  if term.length < 2 || definition.length < 5 then false
  else if 60 < term.length then false
  else if 2000 < definition.length then false
  else if !isNounPhrase term then false
  else if !isValidDefinition definition then false
  else true

/-! ## DeterministicExtractor: citation extraction pipeline -/

/-- `DeterministicExtractor._extract_document_title`: join the first up to
three nonempty stripped lines among the first five lines of page one, skipping
lines starting with `−` or `•`. -/
def extractDocumentTitle (pages : List Page) : Str :=
  match pages with
  | [] => []
  | p0 :: _ =>
    let lines := splitOnNl p0.text.data
    let title_lines := (lines.take 5).foldl (fun acc line =>
      if acc.length ≥ 3 then acc
      else
        let l := stripWs line
        if !l.isEmpty && !startsWithS l [('−' : Char)] && !startsWithS l [('•' : Char)]
        then acc ++ [l] else acc) []
    joinWith [' '] title_lines

/-- Regex `no\.?\s*\(?\d+\)?\s+of\s+\d{4}` of `_is_document_title` (searched on
lowercased text, so written case-sensitively lowercase). -/
def noOfYearPat : List Pat :=
  pLitCS ("no") ++ [pOpt (csChar '.'), pStar isPySpace, pOpt (csChar '('),
    pPlus Char.isDigit, pOpt (csChar ')'), pPlus isPySpace] ++ pLitCS ("of") ++
    [pPlus isPySpace, pRep Char.isDigit 4 4]

/-- Text of the leftmost match (`group(0)`) of a pattern. -/
def searchGroup0 (ps : List Pat) : Str → Option Str
  | [] => (matchHere ps []).map (fun r => r.1)
  | c :: rest =>
    match matchHere ps (c :: rest) with
    | some (t, _) => some t
    | none => searchGroup0 ps rest

/-- `DeterministicExtractor._is_document_title`: a citation longer than 50
characters whose `no. (N) of YYYY` part equals that of the document title is
the document's self-reference. -/
def isDocumentTitle (citation_text document_title : Str) : Bool :=
  if document_title.isEmpty then false
  else
    let citation_lower := toLowerS citation_text
    let title_lower := toLowerS document_title
    if 50 < citation_text.length then
      match searchGroup0 noOfYearPat citation_lower,
            searchGroup0 noOfYearPat title_lower with
      | some cit_match, some title_match => cit_match == title_match
      | _, _ => false
    else false

/-- `DeterministicExtractor._is_header_citation`: a citation found in the first
200 characters of the page with fewer than 50 characters of (stripped) text
before it is a header artifact, unless the preceding text ends with a preamble
marker. -/
def isHeaderCitation (citation_text page_text : Str) : Bool :=
  match findSub page_text citation_text with
  | none => false
  | some citation_pos =>
    if citation_pos < 200 then
      let before_text := stripWs (page_text.take citation_pos)
      if before_text.isEmpty || before_text.length < 50 then true
      else if endsWithS before_text (("The Cabinet:").data) ||
          endsWithS before_text (("We,").data) ||
          endsWithS before_text (("Having reviewed").data) then false
      else false
    else false

/-- Condition on a leading line of `_remove_headers_footers`: short and without
terminal punctuation. -/
def looksLikeHeaderLine (line : Str) : Bool :=
  let l := stripWs line
  l.length < 80 && !(endsWithS l [('.' : Char)] || endsWithS l [(';' : Char)] ||
    endsWithS l [(':' : Char)])

/-- Condition on a trailing line of `_remove_headers_footers`: a bare page
number or very short. -/
def looksLikeFooterLine (line : Str) : Bool :=
  let l := stripWs line
  isDigitS l || l.length < 10

/-- `DeterministicExtractor._remove_headers_footers` (`page_num` is accepted
and ignored, as in the source): texts of fewer than 10 lines are returned
unchanged; otherwise up to two leading header-like lines (the scan stops at the
first line that fails the test, inspecting at most `lines[:3]` as in the
source, where the final `start_idx` is the count of consecutive passing lines)
and up to three trailing footer-like lines are removed. -/
def removeHeadersFooters (text : Str) (page_num : Int) : Str :=
  let _ := page_num
  let lines := splitOnNl text
  if lines.length < 10 then text
  else
    let start_idx := ((lines.take 3).takeWhile looksLikeHeaderLine).length
    let trailing := ((lines.reverse.take 3).takeWhile looksLikeFooterLine).length
    let end_idx := lines.length - trailing
    joinWith [('\n' : Char)] ((lines.drop start_idx).take (end_idx - start_idx))

/-- The per-page body of the loop in `DeterministicExtractor.extract_citations`:
strip headers/footers, run every citation pattern, and clean and filter each
match. -/
def pageCitations (document_title : Str) (page : Page) : List Citation :=
  let text := removeHeadersFooters page.text.data page.page_num
  citationPatterns.flatMap (fun pattern =>
    (findIter false pattern none text).filterMap (fun m =>
      let citation_text := stripWs m
      let citation_text := cleanCitationText citation_text
      if citation_text.length < 20 || 200 < citation_text.length then none
      else if isDocumentTitle citation_text document_title then none
      else if isHeaderCitation citation_text text then none
      else some ⟨⟨citation_text⟩, ⟨canonicalizeCitation citation_text⟩,
        page.page_num, calculateCitationConfidence citation_text, "regex"⟩))

/-- `DeterministicExtractor.extract_citations`. -/
def extractCitations (pages : List Page) : List Citation :=
  let document_title := extractDocumentTitle pages
  pages.flatMap (pageCitations document_title)

/-! ## DeterministicExtractor: definition extraction -/

/-- The class `[–-—:]` of the section-header patterns.  In Python regex the
inner `-` forms a range from `–` (U+2013) to `—` (U+2014), so the class is
exactly `{–, —, :}` and does not contain the ASCII hyphen. -/
def enDashEmDashColon : Char → Bool := fun c => c == '–' || c == '—' || c == ':'

/-- The class `[:–—]` of the term/definition patterns. -/
def colonOrDash : Char → Bool := fun c => c == ':' || c == '–' || c == '—'

/-- The class `[A-Za-z\s&\(\),"\']` of the first term/definition pattern. -/
def termCls1 : Char → Bool := fun c =>
  isAlphaAZ c || isPySpace c || c == '&' || c == '(' || c == ')' || c == ',' ||
    c == '"' || c == '\''

/-- The class `[A-Za-z\s&\(\)"\']` (no comma) of the other term/definition
patterns. -/
def termCls2 : Char → Bool := fun c =>
  isAlphaAZ c || isPySpace c || c == '&' || c == '(' || c == ')' || c == '"' ||
    c == '\''

/-- The class `[A-Za-z\s\(\)]` of the general definition patterns. -/
def generalCls : Char → Bool := fun c =>
  isAlphaAZ c || isPySpace c || c == '(' || c == ')'

/-- A literal as simple items, case-insensitively (for lookaheads). -/
def sLitCI (s : String) : List SPat :=
  s.data.map (fun a => SPat.one (ciChar a))

/-- The fragment `\s*\(?\s*1\s*\)?\s*[–-—:]*\s*` of the `Article (1)` section
headers. -/
def fragParenOne : List Pat :=
  [pStar isPySpace, pOpt (csChar '('), pStar isPySpace, p1 (csChar '1'),
   pStar isPySpace, pOpt (csChar ')'), pStar isPySpace, pStar enDashEmDashColon,
   pStar isPySpace]

/-- The fragment `\s*[–-—:]*\s*`. -/
def fragDashes : List Pat :=
  [pStar isPySpace, pStar enDashEmDashColon, pStar isPySpace]

/-- `DeterministicExtractor.definition_section_patterns` in source order (all
searched with `re.IGNORECASE`). -/
def definitionSectionPatterns : List (List Pat) :=
  [ -- Article\s*\(?\s*1\s*\)?\s*[–-—:]*\s*Definitions
    pLitCI ("Article") ++ fragParenOne ++ pLitCI ("Definitions"),
    -- Article\s+One\s*[–-—:]*\s*Definitions
    pLitCI ("Article") ++ [pPlus isPySpace] ++ pLitCI ("One") ++ fragDashes ++
      pLitCI ("Definitions"),
    -- ARTICLE\s*\(?\s*1\s*\)?\s*[–-—:]*\s*DEFINITIONS
    pLitCI ("ARTICLE") ++ fragParenOne ++ pLitCI ("DEFINITIONS"),
    -- Article\s*\(?\s*1\s*\)?\s*[–-—:]*\s*DEFINITIONS
    pLitCI ("Article") ++ fragParenOne ++ pLitCI ("DEFINITIONS"),
    -- Article\s*\(?\s*1\s*\)?\s*[–-—:]*\s*Definition
    pLitCI ("Article") ++ fragParenOne ++ pLitCI ("Definition"),
    -- Definitions?\s*and\s*Interpretations?
    pLitCI ("Definition") ++ [pOpt (ciChar 's'), pStar isPySpace] ++ pLitCI ("and") ++
      [pStar isPySpace] ++ pLitCI ("Interpretation") ++ [pOpt (ciChar 's')],
    -- DEFINITIONS?\s*AND\s*INTERPRETATIONS?
    pLitCI ("DEFINITION") ++ [pOpt (ciChar 'S'), pStar isPySpace] ++ pLitCI ("AND") ++
      [pStar isPySpace] ++ pLitCI ("INTERPRETATION") ++ [pOpt (ciChar 'S')],
    -- Meaning\s+of\s+Terms
    pLitCI ("Meaning") ++ [pPlus isPySpace] ++ pLitCI ("of") ++ [pPlus isPySpace] ++
      pLitCI ("Terms"),
    -- MEANING\s+OF\s+TERMS
    pLitCI ("MEANING") ++ [pPlus isPySpace] ++ pLitCI ("OF") ++ [pPlus isPySpace] ++
      pLitCI ("TERMS"),
    -- Interpretation\s+of\s+Terms
    pLitCI ("Interpretation") ++ [pPlus isPySpace] ++ pLitCI ("of") ++
      [pPlus isPySpace] ++ pLitCI ("Terms"),
    -- INTERPRETATION\s+OF\s+TERMS
    pLitCI ("INTERPRETATION") ++ [pPlus isPySpace] ++ pLitCI ("OF") ++
      [pPlus isPySpace] ++ pLitCI ("TERMS"),
    -- Interpretation\s+and\s+Application
    pLitCI ("Interpretation") ++ [pPlus isPySpace] ++ pLitCI ("and") ++
      [pPlus isPySpace] ++ pLitCI ("Application"),
    -- INTERPRETATION\s+AND\s+APPLICATION
    pLitCI ("INTERPRETATION") ++ [pPlus isPySpace] ++ pLitCI ("AND") ++
      [pPlus isPySpace] ++ pLitCI ("APPLICATION"),
    -- Chapter\s+\d+\s*[–-—:]*\s*Definitions
    pLitCI ("Chapter") ++ [pPlus isPySpace, pPlus Char.isDigit] ++ fragDashes ++
      pLitCI ("Definitions"),
    -- CHAPTER\s+\d+\s*[–-—:]*\s*DEFINITIONS
    pLitCI ("CHAPTER") ++ [pPlus isPySpace, pPlus Char.isDigit] ++ fragDashes ++
      pLitCI ("DEFINITIONS"),
    -- Chapter\s+One\s*[–-—:]*\s*Definitions
    pLitCI ("Chapter") ++ [pPlus isPySpace] ++ pLitCI ("One") ++ fragDashes ++
      pLitCI ("Definitions"),
    -- Section\s+\d+\s*[–-—:]*\s*Definitions
    pLitCI ("Section") ++ [pPlus isPySpace, pPlus Char.isDigit] ++ fragDashes ++
      pLitCI ("Definitions"),
    -- SECTION\s+\d+\s*[–-—:]*\s*DEFINITIONS
    pLitCI ("SECTION") ++ [pPlus isPySpace, pPlus Char.isDigit] ++ fragDashes ++
      pLitCI ("DEFINITIONS"),
    -- Part\s+One\s*[–-—:]*\s*Definitions
    pLitCI ("Part") ++ [pPlus isPySpace] ++ pLitCI ("One") ++ fragDashes ++
      pLitCI ("Definitions"),
    -- PART\s+ONE\s*[–-—:]*\s*DEFINITIONS
    pLitCI ("PART") ++ [pPlus isPySpace] ++ pLitCI ("ONE") ++ fragDashes ++
      pLitCI ("DEFINITIONS"),
    -- \n\s*Definitions\s*\n
    [p1 (csChar '\n'), pStar isPySpace] ++ pLitCI ("Definitions") ++
      [pStar isPySpace, p1 (csChar '\n')],
    -- \n\s*DEFINITIONS\s*\n
    [p1 (csChar '\n'), pStar isPySpace] ++ pLitCI ("DEFINITIONS") ++
      [pStar isPySpace, p1 (csChar '\n')],
    -- For\s+the\s+purpose[s]?\s+of\s+this\s+(Law|Decree|Resolution)[,:]?\s+the\s+following
    pLitCI ("For") ++ [pPlus isPySpace] ++ pLitCI ("the") ++ [pPlus isPySpace] ++
      pLitCI ("purpose") ++ [pOpt (ciChar 's'), pPlus isPySpace] ++ pLitCI ("of") ++
      [pPlus isPySpace] ++ pLitCI ("this") ++ [pPlus isPySpace,
        Pat.s (.alt [wordCI ("Law"), wordCI ("Decree"), wordCI ("Resolution")]),
        pOpt (fun c => c == ',' || c == ':'), pPlus isPySpace] ++ pLitCI ("the") ++
      [pPlus isPySpace] ++ pLitCI ("following"),
    -- For\s+the\s+purposes\s+of\s+applying\s+the\s+provisions
    pLitCI ("For") ++ [pPlus isPySpace] ++ pLitCI ("the") ++ [pPlus isPySpace] ++
      pLitCI ("purposes") ++ [pPlus isPySpace] ++ pLitCI ("of") ++ [pPlus isPySpace] ++
      pLitCI ("applying") ++ [pPlus isPySpace] ++ pLitCI ("the") ++ [pPlus isPySpace] ++
      pLitCI ("provisions") ]

/-- Regex `\b[A-Z][A-Za-z\s]{2,40}\s+means\s+` of the density scan
(case-sensitive, counted with `re.findall`). -/
def meansDensityPat : List Pat :=
  [p1 isUpperAZ, Pat.s (.rep (fun c => isAlphaAZ c || isPySpace c) 2 40),
   pPlus isPySpace] ++ pLitCS ("means") ++ [pPlus isPySpace]

/-- Regex `\b[A-Z][A-Za-z\s]{2,40}\s*:\s*[A-Z]` of the density scan. -/
def colonDensityPat : List Pat :=
  [p1 isUpperAZ, Pat.s (.rep (fun c => isAlphaAZ c || isPySpace c) 2 40),
   pStar isPySpace, p1 (csChar ':'), pStar isPySpace, p1 isUpperAZ]

/-- Stable ascending insertion sort on integers, Python `sorted`. -/
def insertIntAsc (a : Int) : List Int → List Int
  | [] => [a]
  | b :: l => if a ≤ b then a :: b :: l else b :: insertIntAsc a l

/-- Python `sorted` on a list of integers. -/
def sortIntAsc : List Int → List Int
  | [] => []
  | a :: l => insertIntAsc a (sortIntAsc l)

/-- `DeterministicExtractor.find_all_definitions_sections`: the first loop adds
(first occurrence only) each of the first 15 pages on which some section-header
pattern matches; the second loop adds pages not already present with at least 3
`means`-density matches or at least 5 colon-density matches; the result is
sorted. -/
def findAllDefinitionsSections (pages : List Page) : List Int :=
  let l1 := (pages.take 15).foldl (fun acc page =>
    if definitionSectionPatterns.any (fun ps => reSearch ps page.text.data) then
      (if acc.contains page.page_num then acc else acc ++ [page.page_num])
    else acc) []
  let l2 := (pages.take 15).foldl (fun acc page =>
    if acc.contains page.page_num then acc
    else
      let means_count := (findIter true meansDensityPat none page.text.data).length
      let colon_count := (findIter true colonDensityPat none page.text.data).length
      if 3 ≤ means_count || 5 ≤ colon_count then acc ++ [page.page_num] else acc) l1
  sortIntAsc l2

/-- Regex `\n\s*Article\s*\(?\s*[2-9]\d*\s*\)?` ending a definitions section
(`re.IGNORECASE`). -/
def endArticlePat : List Pat :=
  [p1 (csChar '\n'), pStar isPySpace] ++ pLitCI ("Article") ++
    [pStar isPySpace, pOpt (csChar '('), pStar isPySpace,
     p1 (fun c => '2' ≤ c && c ≤ '9'), pStar Char.isDigit, pStar isPySpace,
     pOpt (csChar ')')]

/-- Regex `\n\s*(Chapter|Section)\s+[2-9]` ending a definitions section. -/
def endChapterSectionPat : List Pat :=
  [p1 (csChar '\n'), pStar isPySpace,
   Pat.s (.alt [wordCI ("Chapter"), wordCI ("Section")]), pPlus isPySpace,
   p1 (fun c => '2' ≤ c && c ≤ '9')]

/-- Truncation of the section text at the next article/chapter/section header,
as in `_extract_from_definitions_section`. -/
def truncateSection (section_text : Str) : Str :=
  match searchPos endArticlePat section_text with
  | some i => section_text.take i
  | none =>
    match searchPos endChapterSectionPat section_text with
    | some i => section_text.take i
    | none => section_text

/-- A two-capture-group regex, split at its group boundaries: `pre`, group 1,
`mid`, group 2, `post` (lookahead/anchors).  `wb` is a leading `\b`. -/
structure TwoGroupPat where
  wb : Bool
  pre : List Pat
  g1 : List Pat
  mid : List Pat
  g2 : List Pat
  post : List Pat

/-- All candidate matches of a two-group pattern at this position, in
backtracking priority order: `(group 1, group 2, total consumed)`. -/
def matchTwoCands (tp : TwoGroupPat) (s : Str) : List (Str × Str × Nat) :=
  (matchSeqP tp.pre s).flatMap (fun r0 =>
  (matchSeqP tp.g1 r0).flatMap (fun r1 =>
  (matchSeqP tp.mid r1).flatMap (fun r2 =>
  (matchSeqP tp.g2 r2).flatMap (fun r3 =>
  (matchSeqP tp.post r3).map (fun r4 =>
    (r0.take (r0.length - r1.length), r2.take (r2.length - r3.length),
     s.length - r4.length))))))

/-- The regex match of a two-group pattern at this position. -/
def matchTwoHere (tp : TwoGroupPat) (s : Str) : Option (Str × Str × Nat) :=
  (matchTwoCands tp s).head?

/-- `re.finditer` for a two-group pattern (worker, structurally recursive on
`fuel`; every match consumes at least one character, so `s.length + 1` fuel
always completes the scan). -/
def findIterTwoAux (tp : TwoGroupPat) : Nat → Option Char → Str → List (Str × Str)
  | 0, _, _ => []
  | _ + 1, _, [] => []
  | fuel + 1, prev, c :: rest =>
    let ok := !tp.wb || wbOk prev
    match (if ok then matchTwoHere tp (c :: rest) else none) with
    | some (g1, g2, consumed) =>
      if consumed == 0 then findIterTwoAux tp fuel (some c) rest
      else
        (g1, g2) :: findIterTwoAux tp fuel
          (((c :: rest).take consumed).getLast? <|> prev) ((c :: rest).drop consumed)
    | none => findIterTwoAux tp fuel (some c) rest

/-- `re.finditer` for a two-group pattern, returning the group pairs. -/
def findIterTwo (tp : TwoGroupPat) (prev : Option Char) (s : Str) :
    List (Str × Str) :=
  findIterTwoAux tp (s.length + 1) prev s

/-- Lookahead alternative `\n\s*Article\s+\(`. -/
def laArticle : List SPat :=
  [.one (csChar '\n'), .star isPySpace] ++ sLitCI ("Article") ++
    [.plus isPySpace, .one (csChar '(')]

/-- Lookahead alternative `\n\n\n`. -/
def laTripleNl : List SPat :=
  [.one (csChar '\n'), .one (csChar '\n'), .one (csChar '\n')]

/-- `DeterministicExtractor.term_def_patterns` in source order, as two-group
patterns (all run with `re.DOTALL | re.IGNORECASE`, so `[A-Z]` means any ASCII
letter and `.` means any character). -/
def termDefPatterns : List TwoGroupPat :=
  [ -- ([A-Z][A-Za-z\s&\(\),"\']+(?:\n[A-Za-z\s&\(\),"\']+)*?)\s+[:–—]\s*(.+?)
    --   (?=\n\s*[A-Z][A-Za-z\s&\(\),"\']+\s+[:–—]|\n\s*Article\s+\(|\Z)
    ⟨false, [],
     [p1 isAlphaAZ, pPlus termCls1, Pat.nlRuns termCls1],
     [pPlus isPySpace, p1 colonOrDash, pStar isPySpace],
     [Pat.s (.lazyPlus (fun _ => true))],
     [Pat.ahead [[.one (csChar '\n'), .star isPySpace, .one isAlphaAZ,
        .plus termCls1, .plus isPySpace, .one colonOrDash], laArticle] true]⟩,
    -- ([A-Z][A-Za-z\s&\(\)"\']+?)\s+means\s+(.+?)
    --   (?=\n\s*[A-Z][A-Za-z\s&\(\)"\']+?\s+means|\n\s*Article\s+\(|\n\n\n|\Z)
    ⟨false, [],
     [p1 isAlphaAZ, Pat.s (.lazyPlus termCls2)],
     [pPlus isPySpace] ++ pLitCI ("means") ++ [pPlus isPySpace],
     [Pat.s (.lazyPlus (fun _ => true))],
     [Pat.ahead [[.one (csChar '\n'), .star isPySpace, .one isAlphaAZ,
        .lazyPlus termCls2, .plus isPySpace] ++ sLitCI ("means"),
        laArticle, laTripleNl] true]⟩,
    -- ([A-Z][A-Za-z\s&\(\)"\']+?)\s+shall mean\s+(.+?)(?=…shall mean|…|\n\n\n|\Z)
    ⟨false, [],
     [p1 isAlphaAZ, Pat.s (.lazyPlus termCls2)],
     [pPlus isPySpace] ++ pLitCI ("shall mean") ++ [pPlus isPySpace],
     [Pat.s (.lazyPlus (fun _ => true))],
     [Pat.ahead [[.one (csChar '\n'), .star isPySpace, .one isAlphaAZ,
        .lazyPlus termCls2, .plus isPySpace] ++ sLitCI ("shall mean"),
        laArticle, laTripleNl] true]⟩,
    -- "([^"]+)"\s+[:–—]\s*(.+?)(?=\n\s*"[^"]+"\s+[:–—]|\n\s*Article\s+\(|\n\n\n|\Z)
    ⟨false, [p1 (csChar '"')],
     [Pat.s (.plus (fun c => !(c == '"')))],
     [p1 (csChar '"'), pPlus isPySpace, p1 colonOrDash, pStar isPySpace],
     [Pat.s (.lazyPlus (fun _ => true))],
     [Pat.ahead [[.one (csChar '\n'), .star isPySpace, .one (csChar '"'),
        .plus (fun c => !(c == '"')), .one (csChar '"'), .plus isPySpace,
        .one colonOrDash], laArticle, laTripleNl] true]⟩,
    -- "([^"]+)"\s+means\s+(.+?)(?=\n\s*"[^"]+"\s+means|\n\s*Article\s+\(|\n\n\n|\Z)
    ⟨false, [p1 (csChar '"')],
     [Pat.s (.plus (fun c => !(c == '"')))],
     [p1 (csChar '"'), pPlus isPySpace] ++ pLitCI ("means") ++ [pPlus isPySpace],
     [Pat.s (.lazyPlus (fun _ => true))],
     [Pat.ahead [[.one (csChar '\n'), .star isPySpace, .one (csChar '"'),
        .plus (fun c => !(c == '"')), .one (csChar '"'), .plus isPySpace] ++
        sLitCI ("means"), laArticle, laTripleNl] true]⟩,
    -- ([A-Z][A-Za-z\s&\(\)"\']+?)\s+refers to\s+(.+?)(?=…refers to|…|\n\n\n|\Z)
    ⟨false, [],
     [p1 isAlphaAZ, Pat.s (.lazyPlus termCls2)],
     [pPlus isPySpace] ++ pLitCI ("refers to") ++ [pPlus isPySpace],
     [Pat.s (.lazyPlus (fun _ => true))],
     [Pat.ahead [[.one (csChar '\n'), .star isPySpace, .one isAlphaAZ,
        .lazyPlus termCls2, .plus isPySpace] ++ sLitCI ("refers to"),
        laArticle, laTripleNl] true]⟩,
    -- ([A-Z][A-Za-z\s&\(\)"\']+?)\s+is defined as\s+(.+?)(?=…is defined as|…|\n\n\n|\Z)
    ⟨false, [],
     [p1 isAlphaAZ, Pat.s (.lazyPlus termCls2)],
     [pPlus isPySpace] ++ pLitCI ("is defined as") ++ [pPlus isPySpace],
     [Pat.s (.lazyPlus (fun _ => true))],
     [Pat.ahead [[.one (csChar '\n'), .star isPySpace, .one isAlphaAZ,
        .lazyPlus termCls2, .plus isPySpace] ++ sLitCI ("is defined as"),
        laArticle, laTripleNl] true]⟩ ]

/-- The class `[^.]`. -/
def notDot : Char → Bool := fun c => !(c == '.')

/-- The class `.` without `re.DOTALL`: any character but a newline. -/
def notNl : Char → Bool := fun c => !(c == '\n')

/-- The eight `footer_patterns` of `_remove_footer_from_definition` (all
substituted with `re.IGNORECASE`), in source order. -/
def footerPatterns : List (List Pat) :=
  [ -- \s+Federal Decree-Law of \d{4} [Oo]n .+\.\s*$
    [pPlus isPySpace] ++ pLitCI ("Federal Decree-Law of ") ++
      [pRep Char.isDigit 4 4, p1 (csChar ' '), p1 (ciChar 'O'), p1 (ciChar 'n'),
       p1 (csChar ' '), pPlus notNl, p1 (csChar '.'), pStar isPySpace, Pat.dollar],
    -- \s+Federal Decree-Law of \d{4} [Oo]n .+$
    [pPlus isPySpace] ++ pLitCI ("Federal Decree-Law of ") ++
      [pRep Char.isDigit 4 4, p1 (csChar ' '), p1 (ciChar 'O'), p1 (ciChar 'n'),
       p1 (csChar ' '), pPlus notNl, Pat.dollar],
    -- \s+Federal Decree of \d{4} [Oo]n .+\.\s*$
    [pPlus isPySpace] ++ pLitCI ("Federal Decree of ") ++
      [pRep Char.isDigit 4 4, p1 (csChar ' '), p1 (ciChar 'O'), p1 (ciChar 'n'),
       p1 (csChar ' '), pPlus notNl, p1 (csChar '.'), pStar isPySpace, Pat.dollar],
    -- \s+Federal Decree of \d{4} [Oo]n .+$
    [pPlus isPySpace] ++ pLitCI ("Federal Decree of ") ++
      [pRep Char.isDigit 4 4, p1 (csChar ' '), p1 (ciChar 'O'), p1 (ciChar 'n'),
       p1 (csChar ' '), pPlus notNl, Pat.dollar],
    -- \s+Cabinet Resolution of \d{4} [Rr]egarding .+\.\s*$
    [pPlus isPySpace] ++ pLitCI ("Cabinet Resolution of ") ++
      [pRep Char.isDigit 4 4, p1 (csChar ' '), p1 (ciChar 'R')] ++
      pLitCI ("egarding ") ++
      [pPlus notNl, p1 (csChar '.'), pStar isPySpace, Pat.dollar],
    -- \s+Cabinet Resolution of \d{4} [Rr]egarding .+$
    [pPlus isPySpace] ++ pLitCI ("Cabinet Resolution of ") ++
      [pRep Char.isDigit 4 4, p1 (csChar ' '), p1 (ciChar 'R')] ++
      pLitCI ("egarding ") ++ [pPlus notNl, Pat.dollar],
    -- \s+Federal Decree-Law of \d{4} On .+\.\s*$
    [pPlus isPySpace] ++ pLitCI ("Federal Decree-Law of ") ++
      [pRep Char.isDigit 4 4] ++ pLitCI (" On ") ++
      [pPlus notNl, p1 (csChar '.'), pStar isPySpace, Pat.dollar],
    -- \s+Federal Decree-Law of \d{4} On .+$
    [pPlus isPySpace] ++ pLitCI ("Federal Decree-Law of ") ++
      [pRep Char.isDigit 4 4] ++ pLitCI (" On ") ++ [pPlus notNl, Pat.dollar] ]

/-- Regex `\s+Federal Decree[- ]?Law of \d{4}[^.]*\d+\s*$` (case-sensitive). -/
def footerNumPat1 : List Pat :=
  [pPlus isPySpace] ++ pLitCS ("Federal Decree") ++ [pOpt dashSpace] ++
    pLitCS ("Law of ") ++ [pRep Char.isDigit 4 4, pStar notDot,
      pPlus Char.isDigit, pStar isPySpace, Pat.dollar]

/-- Regex `\s+Cabinet Resolution of \d{4}[^.]*\d+\s*$` (case-sensitive). -/
def footerNumPat2 : List Pat :=
  [pPlus isPySpace] ++ pLitCS ("Cabinet Resolution of ") ++
    [pRep Char.isDigit 4 4, pStar notDot, pPlus Char.isDigit, pStar isPySpace,
     Pat.dollar]

/-- Regex `\s+Federal Decree-Law of \d{4} On [A-Z][^.]*$` (case-sensitive). -/
def footerOnPat : List Pat :=
  [pPlus isPySpace] ++ pLitCS ("Federal Decree-Law of ") ++
    [pRep Char.isDigit 4 4] ++ pLitCS (" On ") ++
    [p1 isUpperAZ, pStar notDot, Pat.dollar]

/-- `DeterministicExtractor._remove_footer_from_definition`. -/
def removeFooterFromDefinition (definition : Str) : Str :=
  let cleaned := footerPatterns.foldl (fun acc ps => subAll ps [] acc) definition
  let cleaned := subAll footerNumPat1 [] cleaned
  let cleaned := subAll footerNumPat2 [] cleaned
  let cleaned := subAll footerOnPat [] cleaned
  stripWs cleaned

/-- `re.sub(r'^[:−–—]\s*', '', definition)` of
`_extract_newline_separated_definitions` (anchored, so a single removal at the
start). -/
def cleanLeadColonDash (definition : Str) : Str :=
  match definition with
  | c :: rest =>
    if c == ':' || c == '−' || c == '–' || c == '—' then rest.dropWhile isPySpace
    else c :: rest
  | [] => []

/-- The inner `while j < len(lines)` collector of
`_extract_newline_separated_definitions`: gather stripped nonempty lines from
index `j` on, stopping at an empty line or (when `j > i + 1`) at a line that
looks like the next term; returns the parts and the number of lines consumed
(so the caller resumes at `j = i + 1 + consumed`). -/
def nlsdCollect (iPlus1 j : Nat) : List Str → (List Str × Nat)
  | [] => ([], 0)
  | l :: rest =>
    let def_line := stripWs l
    if def_line.isEmpty then ([], 0)
    else if iPlus1 < j && def_line.length < 50 && (def_line.headD ' ').isUpper &&
        !startsWithS def_line [(':' : Char)] && !startsWithS def_line [('−' : Char)] &&
        !startsWithS def_line [('–' : Char)] then ([], 0)
    else
      let r := nlsdCollect iPlus1 (j + 1) rest
      (def_line :: r.1, r.2 + 1)

/-- The `while i < len(lines) - 1` loop of
`_extract_newline_separated_definitions` (structurally recursive on `fuel`;
the index advances by at least one per step, so `lines.length + 1` fuel always
completes the loop): a short capitalised line not ending in a period and not
starting an Article/Chapter heading, followed by a line starting with a colon
or dash, opens a definition; the loop resumes after the collected lines. -/
def nlsdLoop (lines : List Str) (page_num : Int) : Nat → Nat → List Definition
  | 0, _ => []
  | fuel + 1, i =>
    if i + 1 < lines.length then
      let line := stripWs (lines.getD i [])
      let next_line := stripWs (lines.getD (i + 1) [])
      if 2 < line.length && line.length < 50 && (line.headD ' ').isUpper &&
          !endsWithS line [('.' : Char)] && !startsWithS line (("Article").data) &&
          !startsWithS line (("Chapter").data) then
        if startsWithS next_line [(':' : Char)] || startsWithS next_line [('−' : Char)] ||
            startsWithS next_line [('–' : Char)] then
          let col := nlsdCollect (i + 1) (i + 1) (lines.drop (i + 1))
          let defs :=
            if col.1.isEmpty then []
            else
              let term := normalizeTerm line
              let definition := normalizeDefinition (joinWith [' '] col.1)
              let definition := cleanLeadColonDash definition
              if isValidTermDefinition term definition then
                [⟨⟨term⟩, ⟨definition⟩, page_num, 0.88, "layout_regex"⟩]
              else []
          defs ++ nlsdLoop lines page_num fuel (i + 1 + col.2)
        else nlsdLoop lines page_num fuel (i + 1)
      else nlsdLoop lines page_num fuel (i + 1)
    else []

/-- `DeterministicExtractor._extract_newline_separated_definitions`. -/
def extractNewlineSeparatedDefinitions (text : Str) (page_num : Int) :
    List Definition :=
  nlsdLoop (splitOnNl text) page_num ((splitOnNl text).length + 1) 0

/-- `DeterministicExtractor._extract_from_definitions_section`: concatenate
the header/footer-stripped texts of pages `start_page .. start_page + 5`,
truncate at the next article/chapter/section, extract the term/definition
pairs of every pattern (term normalised, definition normalised and
footer-stripped, both validated, confidence `0.90`, method `layout_regex`),
then append the newline-separated scan. -/
def extractFromDefinitionsSection (pages : List Page) (start_page : Int) :
    List Definition :=
  let section_text := pages.foldl (fun acc page =>
    if start_page ≤ page.page_num && page.page_num ≤ start_page + 5 then
      acc ++ removeHeadersFooters page.text.data page.page_num ++ [('\n' : Char)]
    else acc) []
  let section_text := truncateSection section_text
  let fromPats := termDefPatterns.flatMap (fun tp =>
    (findIterTwo tp none section_text).filterMap (fun m =>
      let term := normalizeTerm (stripWs m.1)
      let definition := normalizeDefinition (stripWs m.2)
      let definition := removeFooterFromDefinition definition
      if isValidTermDefinition term definition then
        some ⟨⟨term⟩, ⟨definition⟩, start_page, 0.90, "layout_regex"⟩
      else none))
  fromPats ++ extractNewlineSeparatedDefinitions section_text start_page

/-- `DeterministicExtractor._extract_definitions_general` patterns in source
order (run with `re.MULTILINE` only, hence case-sensitive). -/
def generalDefPatterns : List TwoGroupPat :=
  [ -- \b([A-Z][A-Za-z\s\(\)]{2,50})\s+means\s+([^.]+\.)
    ⟨true, [], [p1 isUpperAZ, Pat.s (.rep generalCls 2 50)],
     [pPlus isPySpace] ++ pLitCS ("means") ++ [pPlus isPySpace],
     [Pat.s (.plus notDot), p1 (csChar '.')], []⟩,
    -- \b([A-Z][A-Za-z\s\(\)]{2,50})\s+shall mean\s+([^.]+\.)
    ⟨true, [], [p1 isUpperAZ, Pat.s (.rep generalCls 2 50)],
     [pPlus isPySpace] ++ pLitCS ("shall mean") ++ [pPlus isPySpace],
     [Pat.s (.plus notDot), p1 (csChar '.')], []⟩,
    -- \b([A-Z][A-Za-z\s\(\)]{2,50})\s+mean\s+([^.]+\.)
    ⟨true, [], [p1 isUpperAZ, Pat.s (.rep generalCls 2 50)],
     [pPlus isPySpace] ++ pLitCS ("mean") ++ [pPlus isPySpace],
     [Pat.s (.plus notDot), p1 (csChar '.')], []⟩,
    -- \b([A-Z][A-Za-z\s\(\)]{2,50})\s+refers to\s+([^.]+\.)
    ⟨true, [], [p1 isUpperAZ, Pat.s (.rep generalCls 2 50)],
     [pPlus isPySpace] ++ pLitCS ("refers to") ++ [pPlus isPySpace],
     [Pat.s (.plus notDot), p1 (csChar '.')], []⟩,
    -- \b([A-Z][A-Za-z\s\(\)]{2,50})\s+shall refer to\s+([^.]+\.)
    ⟨true, [], [p1 isUpperAZ, Pat.s (.rep generalCls 2 50)],
     [pPlus isPySpace] ++ pLitCS ("shall refer to") ++ [pPlus isPySpace],
     [Pat.s (.plus notDot), p1 (csChar '.')], []⟩,
    -- \b([A-Z][A-Za-z\s\(\)]{2,50})\s+is defined as\s+([^.]+\.)
    ⟨true, [], [p1 isUpperAZ, Pat.s (.rep generalCls 2 50)],
     [pPlus isPySpace] ++ pLitCS ("is defined as") ++ [pPlus isPySpace],
     [Pat.s (.plus notDot), p1 (csChar '.')], []⟩,
    -- \b([A-Z][A-Za-z\s\(\)]{2,50})\s+denotes\s+([^.]+\.)
    ⟨true, [], [p1 isUpperAZ, Pat.s (.rep generalCls 2 50)],
     [pPlus isPySpace] ++ pLitCS ("denotes") ++ [pPlus isPySpace],
     [Pat.s (.plus notDot), p1 (csChar '.')], []⟩,
    -- "([^"]{2,50})"\s+means\s+([^.]+\.)
    ⟨false, [p1 (csChar '"')], [Pat.s (.rep (fun c => !(c == '"')) 2 50)],
     [p1 (csChar '"'), pPlus isPySpace] ++ pLitCS ("means") ++ [pPlus isPySpace],
     [Pat.s (.plus notDot), p1 (csChar '.')], []⟩,
    -- "([^"]{2,50})"\s+shall mean\s+([^.]+\.)
    ⟨false, [p1 (csChar '"')], [Pat.s (.rep (fun c => !(c == '"')) 2 50)],
     [p1 (csChar '"'), pPlus isPySpace] ++ pLitCS ("shall mean") ++ [pPlus isPySpace],
     [Pat.s (.plus notDot), p1 (csChar '.')], []⟩,
    -- "([^"]{2,50})"\s+refers to\s+([^.]+\.)
    ⟨false, [p1 (csChar '"')], [Pat.s (.rep (fun c => !(c == '"')) 2 50)],
     [p1 (csChar '"'), pPlus isPySpace] ++ pLitCS ("refers to") ++ [pPlus isPySpace],
     [Pat.s (.plus notDot), p1 (csChar '.')], []⟩ ]

/-- `DeterministicExtractor._extract_definitions_general`: the looser
whole-document scan, confidence `0.82`, method `regex`. -/
def extractDefinitionsGeneral (pages : List Page) : List Definition :=
  pages.flatMap (fun page =>
    generalDefPatterns.flatMap (fun tp =>
      (findIterTwo tp none page.text.data).filterMap (fun m =>
        let term := normalizeTerm m.1
        let definition := normalizeDefinition m.2
        if isValidTermDefinition term definition then
          some ⟨⟨term⟩, ⟨definition⟩, page.page_num, 0.82, "regex"⟩
        else none)))

/-- `DeterministicExtractor.extract_definitions` for an extractor constructed
without a `pdf_path` (the default): every discovered definitions section is
processed with `_extract_from_definitions_section` (the PyMuPDF variant needs
the PDF file on disk and is not reachable without a path), then the general
scan of the whole document is appended. -/
def extractDefinitions (pages : List Page) : List Definition :=
  let def_section_pages := findAllDefinitionsSections pages
  (def_section_pages.flatMap (fun start_page =>
    extractFromDefinitionsSection pages start_page)) ++
    extractDefinitionsGeneral pages

/-! ## Normal forms for the normalisation functions

`normalize_term`/`normalize_definition` are not idempotent in general (see the
theorems below); the following predicates characterise outputs on which every
stage of a second application is the identity. -/

/-- A string on which every stage of `normalize_term` acts as the identity: no
newline, whitespace already collapsed, no strippable punctuation or quotes at
either end, no leading `The `, no surrounding whitespace. -/
def termNormalForm (y : Str) : Bool :=
  !y.contains '\n' && collapseWs y == y && rstripSet termPunct y == y &&
    lstripSet termPunct y == y && stripSet quoteChars y == y &&
    !startsWithS y (("The ").data) && stripWs y == y

/-- A string on which every stage of `normalize_definition` acts as the
identity: no newline, whitespace collapsed, no strippable punctuation at
either end, no surrounding whitespace, and the final period-appending stage
does not fire (empty, or already ending in `.`/`!`/`?`, or at most 20
characters long). -/
def defNormalForm (y : Str) : Bool :=
  !y.contains '\n' && collapseWs y == y && lstripSet defLeadPunct y == y &&
    rstripSet defTrailPunct y == y && stripWs y == y &&
    (y.isEmpty || ([('.' : Char), '!', '?']).contains (y.getLastD ' ') ||
      decide (y.length ≤ 20))

/-! # Theorems -/

/-- A successful literal-word match leaves a suffix of the input. -/
theorem matchWord_suffix (ps : List (Char → Bool)) :
    ∀ (s t : Str), matchWord ps s = some t → t.IsSuffix s := by
  induction ps with
  | nil =>
    intro s t ht
    simp [matchWord] at ht
    simp [ht]
  | cons p ps ih =>
    intro s t ht
    cases s with
    | nil => simp [matchWord] at ht
    | cons c rest =>
      simp only [matchWord] at ht
      split at ht
      · exact (ih rest t ht).trans ⟨[c], rfl⟩
      · simp at ht

/-- Remainders produced by a simple pattern item are suffixes of the input. -/
theorem matchS_suffix (sp : SPat) (s r : Str) (h : r ∈ matchS sp s) :
    r.IsSuffix s := by
  cases sp with
  | one p =>
    cases s with
    | nil => simp [matchS] at h
    | cons c rest =>
      simp only [matchS] at h
      split at h
      · simp at h
        exact h ▸ ⟨[c], rfl⟩
      · simp at h
  | opt p =>
    cases s with
    | nil =>
      simp [matchS] at h
      simp [h]
    | cons c rest =>
      simp only [matchS] at h
      split at h
      · rcases List.mem_pair.mp h with h | h
        · exact h ▸ ⟨[c], rfl⟩
        · exact h ▸ List.suffix_refl _
      · simp at h
        exact h ▸ List.suffix_refl _
  | star p =>
    simp only [matchS, dropsDesc, List.mem_map, List.mem_range] at h
    obtain ⟨i, -, rfl⟩ := h
    exact ⟨s.take _, List.take_append_drop _ s⟩
  | lazyStar p =>
    simp only [matchS, dropsAsc, List.mem_map, List.mem_range] at h
    obtain ⟨i, -, rfl⟩ := h
    exact ⟨s.take _, List.take_append_drop _ s⟩
  | plus p =>
    simp only [matchS] at h
    split at h
    · simp at h
    · simp only [dropsDesc, List.mem_map, List.mem_range] at h
      obtain ⟨i, -, rfl⟩ := h
      exact ⟨s.take _, List.take_append_drop _ s⟩
  | lazyPlus p =>
    simp only [matchS] at h
    split at h
    · simp at h
    · simp only [dropsAsc, List.mem_map, List.mem_range] at h
      obtain ⟨i, -, rfl⟩ := h
      exact ⟨s.take _, List.take_append_drop _ s⟩
  | rep p lo hi =>
    simp only [matchS] at h
    split at h
    · simp at h
    · simp only [dropsDesc, List.mem_map, List.mem_range] at h
      obtain ⟨i, -, rfl⟩ := h
      exact ⟨s.take _, List.take_append_drop _ s⟩
  | optWord cs =>
    simp only [matchS] at h
    split at h
    · rcases List.mem_pair.mp h with h | h
      · exact h ▸ matchWord_suffix cs s _ (by assumption)
      · exact h ▸ List.suffix_refl _
    · simp at h
      exact h ▸ List.suffix_refl _
  | alt cs =>
    simp only [matchS, List.mem_filterMap] at h
    obtain ⟨a, -, ha⟩ := h
    exact matchWord_suffix a s r ha

/-- The single-newline item fails on newline-free input. -/
theorem matchP_nl_eq_nil (r : Str) (h : ('\n' : Char) ∉ r) :
    matchP (p1 (csChar '\n')) r = [] := by
  cases r with
  | nil => rfl
  | cons c t =>
    have hc : ¬ c = '\n' := fun hc => h (hc ▸ List.mem_cons_self c t)
    simp [p1, matchP, matchS, csChar, hc]

/-- The hyphen-newline pattern of `normalize_term`/`normalize_definition`
cannot match inside a newline-free string. -/
theorem hyphenNl_no_match (s : Str) (h : ('\n' : Char) ∉ s) :
    matchSeqP hyphenNlPat s = [] := by
  show ((matchP (p1 (csChar '-')) s).flatMap
    (matchSeqP [pStar isPySpace, p1 (csChar '\n'), pStar isPySpace])) = []
  rw [List.flatMap_eq_nil_iff]
  intro r hr
  have hrs : ('\n' : Char) ∉ r :=
    fun hm => h ((matchS_suffix (SPat.one (csChar '-')) s r hr).subset hm)
  show ((matchP (pStar isPySpace) r).flatMap
    (matchSeqP [p1 (csChar '\n'), pStar isPySpace])) = []
  rw [List.flatMap_eq_nil_iff]
  intro r' hr'
  have hrs' : ('\n' : Char) ∉ r' :=
    fun hm => hrs ((matchS_suffix (SPat.star isPySpace) r r' hr').subset hm)
  show ((matchP (p1 (csChar '\n')) r').flatMap (matchSeqP [pStar isPySpace])) = []
  rw [matchP_nl_eq_nil r' hrs']
  rfl

/-- The hyphen-newline substitution is the identity on newline-free strings. -/
theorem subAllAux_hyphenNl_id :
    ∀ (fuel : Nat) (s : Str), ('\n' : Char) ∉ s →
      subAllAux hyphenNlPat [] fuel s = s := by
  intro fuel
  induction fuel with
  | zero => intro s _; rfl
  | succ fuel ih =>
    intro s h
    cases s with
    | nil => rfl
    | cons c rest =>
      have hm : matchHere hyphenNlPat (c :: rest) = none := by
        simp [matchHere, hyphenNl_no_match _ h]
      have hrest : ('\n' : Char) ∉ rest := fun hr => h (List.mem_cons_of_mem c hr)
      simp [subAllAux, hm, ih rest hrest]

/-- The hyphen-newline substitution (wrapper) is the identity on newline-free
strings. -/
theorem subAll_hyphenNl_id (s : Str) (h : ('\n' : Char) ∉ s) :
    subAll hyphenNlPat [] s = s :=
  subAllAux_hyphenNl_id _ s h

/-- Replacing newlines by spaces is the identity on newline-free strings. -/
theorem map_replaceNl_id (s : Str) (h : ('\n' : Char) ∉ s) :
    s.map (fun c => if c == '\n' then ' ' else c) = s := by
  induction s with
  | nil => rfl
  | cons c rest ih =>
    have hc : ¬ c = '\n' := fun hc => h (hc ▸ List.mem_cons_self c rest)
    simp only [List.map_cons, List.cons.injEq]
    exact ⟨by simp [hc], ih (fun hr => h (List.mem_cons_of_mem c hr))⟩

/-- Every stage of `normalize_term` fixes a string in term normal form. -/
theorem normalizeTerm_fixed (y : Str) (h : termNormalForm y = true) :
    normalizeTerm y = y := by
  simp only [termNormalForm, Bool.and_eq_true, beq_iff_eq, Bool.not_eq_true'] at h
  obtain ⟨⟨⟨⟨⟨⟨hnl, hcol⟩, hr⟩, hl⟩, hq⟩, hthe⟩, hw⟩ := h
  replace hnl : ('\n' : Char) ∉ y := by simpa using hnl
  unfold normalizeTerm
  dsimp only
  rw [subAll_hyphenNl_id y hnl, map_replaceNl_id y hnl, hcol, hr, hl, hq, hthe]
  simp only [Bool.false_eq_true, if_false]
  exact hw

/-- Every stage of `normalize_definition` fixes a string in definition normal
form. -/
theorem normalizeDefinition_fixed (y : Str) (h : defNormalForm y = true) :
    normalizeDefinition y = y := by
  simp only [defNormalForm, Bool.and_eq_true, Bool.or_eq_true, beq_iff_eq,
    Bool.not_eq_true', decide_eq_true_eq] at h
  obtain ⟨⟨⟨⟨⟨hnl, hcol⟩, hl⟩, hr⟩, hw⟩, hfin⟩ := h
  replace hnl : ('\n' : Char) ∉ y := by simpa using hnl
  unfold normalizeDefinition
  dsimp only
  rw [subAll_hyphenNl_id y hnl, hcol, hl, hr, hw]
  rcases hfin with (hfin | hfin) | hfin
  · simp [hfin]
  · rw [hfin]
    simp
  · have hlen : ¬ 20 < y.length := Nat.not_lt.mpr hfin
    simp [hlen]

/-- C2 counterexample: `normalize_term` and `normalize_definition` are not
idempotent.  `normalize_term("The The Tax")` is `"The Tax"`, which a second
application shortens to `"Tax"`; `normalize_definition("a : ,")` is `"a :"`
(the trailing `,` is stripped, exposing `" :"`, and only the outer whitespace
is then trimmed), which a second application shortens to `"a"`. -/
theorem normalize_not_idempotent :
    normalizeTerm (normalizeTerm (("The The Tax").data)) ≠
      normalizeTerm (("The The Tax").data) ∧
    normalizeDefinition (normalizeDefinition (("a : ,").data)) ≠
      normalizeDefinition (("a : ,").data) := by
  constructor
  · decide
  · decide

/-- C2 (amended): `normalize_term` and `normalize_definition` are idempotent
on every input whose first normalisation is in normal form — no newline, fully
collapsed whitespace, no strippable punctuation or quote characters at either
end, for terms no leading `The `, and for definitions no pending
period-appending; in general a second application can differ (see the
counterexample). -/
theorem normalize_idempotent_on_normal_forms :
    (∀ x : Str, termNormalForm (normalizeTerm x) = true →
      normalizeTerm (normalizeTerm x) = normalizeTerm x) ∧
    (∀ x : Str, defNormalForm (normalizeDefinition x) = true →
      normalizeDefinition (normalizeDefinition x) = normalizeDefinition x) :=
  ⟨fun _ h => normalizeTerm_fixed _ h, fun _ h => normalizeDefinition_fixed _ h⟩

/-- Witness for the amended C2 theorem at concrete inputs. -/
theorem normalize_idempotent_on_normal_forms_witness :
    normalizeTerm (normalizeTerm (("Tax Period").data)) =
      normalizeTerm (("Tax Period").data) ∧
    normalizeDefinition (normalizeDefinition
        (("A registered taxpayer in the State.").data)) =
      normalizeDefinition (("A registered taxpayer in the State.").data) :=
  ⟨normalize_idempotent_on_normal_forms.1 (("Tax Period").data) (by decide),
   normalize_idempotent_on_normal_forms.2
     (("A registered taxpayer in the State.").data) (by decide)⟩

/-- C3: `canonicalize_citation` applies its type rules most-specific-first, so
the three Decree-Law phrasings (hyphenated, `Decree by Law`, and without
`Federal`) all canonicalize to `fed_decree_law_47_2022`, and a Cabinet
Resolution canonicalizes to `cabinet_resolution_37_2017`. -/
theorem canonicalize_citation_precedence :
    canonicalizeCitation (("Federal Decree-Law No. (47) of 2022 ...").data) =
      ("fed_decree_law_47_2022").data ∧
    canonicalizeCitation (("Federal Decree by Law No. (47) of 2022 ...").data) =
      ("fed_decree_law_47_2022").data ∧
    canonicalizeCitation (("Decree-Law No. 47 of 2022 ...").data) =
      ("fed_decree_law_47_2022").data ∧
    canonicalizeCitation (("Cabinet Resolution No. (37) of 2017").data) =
      ("cabinet_resolution_37_2017").data := by
  refine ⟨?_, ?_, ?_, ?_⟩
  · decide
  · decide
  · decide
  · decide

/-- C4: the citation confidence is the cap at `1.0` of `0.85` plus `0.05` per
bonus signal (parenthesised number, four-digit year, concerning/on/regarding);
it equals `0.85` with no signal, is monotone in each signal, and always lies
in `[0, 1]`. -/
theorem citation_confidence_structure :
    (∀ text : Str, calculateCitationConfidence text =
      confidenceFromSignals (hasParenNumber text) (hasYearDigits text)
        (hasLinkWord text)) ∧
    confidenceFromSignals false false false = 0.85 ∧
    (∀ b1 b2 b3 : Bool, confidenceFromSignals b1 b2 b3 =
      min (0.85 + 0.05 * ((if b1 then 1 else 0) + (if b2 then 1 else 0) +
        (if b3 then 1 else 0) : ℚ)) 1.0) ∧
    (∀ b2 b3 : Bool,
      confidenceFromSignals false b2 b3 ≤ confidenceFromSignals true b2 b3) ∧
    (∀ b1 b3 : Bool,
      confidenceFromSignals b1 false b3 ≤ confidenceFromSignals b1 true b3) ∧
    (∀ b1 b2 : Bool,
      confidenceFromSignals b1 b2 false ≤ confidenceFromSignals b1 b2 true) ∧
    (∀ text : Str, 0 ≤ calculateCitationConfidence text ∧
      calculateCitationConfidence text ≤ 1) := by
  refine ⟨fun _ => rfl, by norm_num [confidenceFromSignals], ?_, ?_, ?_, ?_, ?_⟩
  · intro b1 b2 b3
    rcases b1 <;> rcases b2 <;> rcases b3 <;> norm_num [confidenceFromSignals]
  · intro b2 b3
    rcases b2 <;> rcases b3 <;> norm_num [confidenceFromSignals]
  · intro b1 b3
    rcases b1 <;> rcases b3 <;> norm_num [confidenceFromSignals]
  · intro b1 b2
    rcases b1 <;> rcases b2 <;> norm_num [confidenceFromSignals]
  · intro text
    unfold calculateCitationConfidence
    rcases hasParenNumber text <;> rcases hasYearDigits text <;>
      rcases hasLinkWord text <;> constructor <;>
      norm_num [confidenceFromSignals]

/-- C5 counterexample: the validator accepts the pair `("AB", "defgh")` whose
term has length exactly 2 — the code's lower gate is `len(term) < 2`, so terms
of length 2 pass, contradicting the claimed strict bound `len(term) > 2`. -/
theorem length_gate_accepts_length_two :
    isValidTermDefinition (("AB").data) (("defgh").data) = true ∧
    (("AB").data).length = 2 := by
  constructor
  · decide
  · decide

/-- C5 (amended): the validator accepts a pair only when the term length is at
least 2 (not strictly greater than 2) and at most 60, and the definition
length is at least 5 and at most 2000. -/
theorem length_gates_necessary (term definition : Str)
    (h : isValidTermDefinition term definition = true) :
    2 ≤ term.length ∧ term.length ≤ 60 ∧
      5 ≤ definition.length ∧ definition.length ≤ 2000 := by
  unfold isValidTermDefinition at h
  split at h
  · exact absurd h (by simp)
  · split at h
    · exact absurd h (by simp)
    · split at h
      · exact absurd h (by simp)
      · rename_i h1 h2 h3
        simp only [Bool.or_eq_true, not_or, decide_eq_true_eq] at h1 h2 h3
        omega

/-- Witness for the amended C5 theorem at a concrete accepted pair. -/
theorem length_gates_necessary_witness :
    2 ≤ (("Tax Period").data).length ∧ (("Tax Period").data).length ≤ 60 ∧
      5 ≤ (("A period of time for tax purposes.").data).length ∧
      (("A period of time for tax purposes.").data).length ≤ 2000 :=
  length_gates_necessary (("Tax Period").data)
    (("A period of time for tax purposes.").data) (by decide)

/-- C6: the noun-phrase test rejects the gerund-led `Notifying the Authority`,
accepts `Tax Period`, and rejects the preposition-chained `Registration of the
Recipient of such Goods by the Authority`. -/
theorem noun_phrase_examples :
    isNounPhrase (("Notifying the Authority").data) = false ∧
    isNounPhrase (("Tax Period").data) = true ∧
    isNounPhrase (("Registration of the Recipient of such Goods by the Authority").data)
      = false := by
  refine ⟨?_, ?_, ?_⟩
  · decide
  · decide
  · decide

/-- C9: a page with empty text contributes no citation and no definition
candidates, and both extractors are total on it. -/
theorem empty_page_yields_no_candidates :
    ∀ (page_num : Int), extractCitations [⟨page_num, ""⟩] = [] ∧
      extractDefinitions [⟨page_num, ""⟩] = [] :=
  fun _ => ⟨rfl, rfl⟩

/-- A citation always overlaps a list it belongs to (its canonical id matches
itself). -/
theorem hasCitationOverlap_of_mem (sim : String → String → ℚ) (a : Citation)
    (acc : List Citation) (h : a ∈ acc) : hasCitationOverlap sim a acc = true :=
  List.any_eq_true.mpr ⟨a, h, by simp⟩

/-- The AI-append loop of `merge_citations` adds nothing when every candidate
is already in the accumulated list. -/
theorem aiFold_of_subset (sim : String → String → ℚ) :
    ∀ (l acc : List Citation), (∀ a ∈ l, a ∈ acc) →
      l.foldl (fun acc ai_cit =>
        if hasCitationOverlap sim ai_cit acc then acc else acc ++ [ai_cit]) acc
        = acc := by
  intro l
  induction l with
  | nil => intro acc _; rfl
  | cons a l ih =>
    intro acc h
    have ha := hasCitationOverlap_of_mem sim a acc (h a (List.mem_cons_self a l))
    simp only [List.foldl_cons, ha, if_true]
    exact ih acc (fun b hb => h b (List.mem_cons_of_mem a hb))

/-- Stable insertion is a permutation of consing. -/
theorem insertStable_perm (le : Citation → Citation → Bool) (a : Citation) :
    ∀ l : List Citation, List.Perm (insertStable le a l) (a :: l) := by
  intro l
  induction l with
  | nil => simp [insertStable]
  | cons b t ih =>
    simp only [insertStable]
    split
    · exact List.Perm.refl _
    · exact (ih.cons b).trans (List.Perm.swap a b t)

/-- Stable sorting permutes the list. -/
theorem sortStable_perm (le : Citation → Citation → Bool) :
    ∀ l : List Citation, List.Perm (sortStable le l) l := by
  intro l
  induction l with
  | nil => exact List.Perm.refl _
  | cons a t ih =>
    exact (insertStable_perm le a (sortStable le t)).trans (ih.cons a)

/-- Permuted lists have equal `toFinset`s. -/
theorem perm_toFinset {l₁ l₂ : List String} (p : List.Perm l₁ l₂) :
    l₁.toFinset = l₂.toFinset :=
  Finset.ext fun x => by simp [List.mem_toFinset, p.mem_iff]

/-- C7: merging a citation list with itself is idempotent up to dedup — the
canonical-key set of `merge(X, X)` equals that of `dedup(X)`, for any
similarity oracle. -/
theorem merge_self_canonical_keys (sim : String → String → ℚ)
    (X : List Citation) :
    ((mergeCitations sim X X).map Citation.canonical_id).toFinset =
      ((deduplicateCitations sim X).map Citation.canonical_id).toFinset := by
  unfold mergeCitations
  dsimp only
  rw [aiFold_of_subset sim X X (fun a ha => ha)]
  exact perm_toFinset
    ((sortStable_perm (fun a b => decide (b.confidence ≤ a.confidence))
      (deduplicateCitations sim X)).map Citation.canonical_id)

/-- One dedup step preserves the invariant: the accumulated canonical ids are
pairwise distinct and `seen_ids` is exactly their set. -/
theorem dedupStep_inv (sim : String → String → ℚ) (st : DedupState)
    (cit : Citation)
    (h1 : (st.unique.map Citation.canonical_id).Nodup)
    (h2 : ∀ x : String, x ∈ st.seen_ids ↔ x ∈ st.unique.map Citation.canonical_id) :
    ((dedupStep sim st cit).unique.map Citation.canonical_id).Nodup ∧
      (∀ x : String, x ∈ (dedupStep sim st cit).seen_ids ↔
        x ∈ (dedupStep sim st cit).unique.map Citation.canonical_id) := by
  unfold dedupStep
  split
  · exact ⟨h1, h2⟩
  · rename_i hmem
    have hnotin : cit.canonical_id ∉ st.unique.map Citation.canonical_id :=
      fun hc => hmem ((h2 cit.canonical_id).mpr hc)
    split
    · rename_i existing hfind
      split
      · have hex : existing ∈ st.unique := List.mem_of_find?_eq_some hfind
        have pm : List.Perm (st.unique.map Citation.canonical_id)
            (existing.canonical_id :: (st.unique.erase existing).map Citation.canonical_id) :=
          (List.perm_cons_erase hex).map Citation.canonical_id
        have h1' := pm.nodup_iff.mp h1
        have heid : existing.canonical_id ∉
            (st.unique.erase existing).map Citation.canonical_id :=
          (List.nodup_cons.mp h1').1
        have h1e : ((st.unique.erase existing).map Citation.canonical_id).Nodup :=
          (List.nodup_cons.mp h1').2
        have hsub : (st.unique.erase existing).map Citation.canonical_id ⊆
            st.unique.map Citation.canonical_id :=
          ((List.erase_sublist existing st.unique).map Citation.canonical_id).subset
        have hmemiff : ∀ x : String,
            x ∈ (st.unique.erase existing).map Citation.canonical_id ↔
              x ∈ st.unique.map Citation.canonical_id ∧ x ≠ existing.canonical_id := by
          intro x
          constructor
          · intro hx
            exact ⟨hsub hx, fun he => heid (he ▸ hx)⟩
          · intro ⟨hx, hne⟩
            rcases List.mem_cons.mp (pm.mem_iff.mp hx) with h | h
            · exact absurd h hne
            · exact h
        constructor
        · simp only [List.map_append, List.map_cons, List.map_nil,
            List.nodup_append, List.nodup_cons, List.nodup_nil]
          refine ⟨h1e, ⟨by simp, by simp⟩, ?_⟩
          intro x hx
          simp only [List.mem_cons, List.not_mem_nil, or_false]
          exact fun he => hnotin (hsub (he ▸ hx))
        · intro x
          simp only [Finset.mem_insert, Finset.mem_erase, List.map_append,
            List.mem_append, List.map_cons, List.map_nil, List.mem_cons,
            List.not_mem_nil, or_false, h2 x, hmemiff x]
          constructor
          · rintro (h | ⟨hne, hx⟩)
            · exact Or.inr h
            · exact Or.inl ⟨hx, hne⟩
          · rintro (⟨hx, hne⟩ | h)
            · exact Or.inr ⟨hne, hx⟩
            · exact Or.inl h
      · exact ⟨h1, h2⟩
    · constructor
      · simp only [List.map_append, List.map_cons, List.map_nil,
          List.nodup_append, List.nodup_cons, List.nodup_nil]
        refine ⟨h1, ⟨by simp, by simp⟩, ?_⟩
        intro x hx
        simp only [List.mem_cons, List.not_mem_nil, or_false]
        exact fun he => hnotin (he ▸ hx)
      · intro x
        simp only [Finset.mem_insert, List.map_append, List.mem_append,
          List.map_cons, List.map_nil, List.mem_cons, List.not_mem_nil,
          or_false, h2 x]
        exact or_comm

/-- The dedup loop preserves the invariant of `dedupStep_inv`. -/
theorem dedupFold_inv (sim : String → String → ℚ) :
    ∀ (l : List Citation) (st : DedupState),
      (st.unique.map Citation.canonical_id).Nodup →
      (∀ x : String, x ∈ st.seen_ids ↔ x ∈ st.unique.map Citation.canonical_id) →
      ((l.foldl (dedupStep sim) st).unique.map Citation.canonical_id).Nodup := by
  intro l
  induction l with
  | nil => intro st h1 _; exact h1
  | cons a l ih =>
    intro st h1 h2
    obtain ⟨h1', h2'⟩ := dedupStep_inv sim st a h1 h2
    exact ih (dedupStep sim st a) h1' h2'

/-- The canonical ids in the output of `_deduplicate_citations` are pairwise
distinct, for any similarity oracle. -/
theorem deduplicateCitations_nodup (sim : String → String → ℚ)
    (citations : List Citation) :
    ((deduplicateCitations sim citations).map Citation.canonical_id).Nodup :=
  dedupFold_inv sim citations ⟨[], ∅⟩ List.nodup_nil (by simp)

/-- C10: the list returned by `merge_citations` never contains two citations
with the same canonical id, whatever the similarity backend. -/
theorem merge_canonical_ids_nodup (sim : String → String → ℚ)
    (deterministic ai_enhanced : List Citation) :
    ((mergeCitations sim deterministic ai_enhanced).map
      Citation.canonical_id).Nodup := by
  unfold mergeCitations
  dsimp only
  exact ((sortStable_perm _ _).map Citation.canonical_id).nodup_iff.mpr
    (deduplicateCitations_nodup sim _)

/-- C1 counterexample: two citations with the same canonical id and
confidences `0.80` (first) and `0.90` (second) merge to the `0.80` record —
its text and extraction method survive, not the `0.90` record's — because the
canonical-id dedup keeps the first-seen item (and an AI citation whose
canonical id is already present is never added).  There is also no
`"federal"` tie-break in `result_merger.py` (that heuristic lives in
`DataValidator._deduplicate_citations`, a different module). -/
theorem merge_keeps_first_not_higher_confidence :
    mergeCitations simpleSimilarity
      [⟨"Decree-Law No. 47 of 2022", "fed_decree_law_47_2022", 1, 0.80, "regex"⟩,
       ⟨"Federal Decree-Law No. (47) of 2022", "fed_decree_law_47_2022", 2, 0.90,
         "ai"⟩] []
      = [⟨"Decree-Law No. 47 of 2022", "fed_decree_law_47_2022", 1, 0.80,
          "regex"⟩] := by
  norm_num [mergeCitations, deduplicateCitations, dedupStep, hasCitationOverlap,
    simpleSimilarity, sortStable, insertStable, toLowerS]

/-- C1 (amended): when two citations in the combined list share a canonical
id, the dedup pass keeps the first-encountered record (deterministic input
first, earlier position first), regardless of confidence and of similarity
backend; in particular with confidences `0.80`/`0.90` the merged result
retains whichever record comes first, not the higher-confidence one. -/
theorem merge_same_id_keeps_first (sim : String → String → ℚ)
    (c1 c2 : Citation) (h : c1.canonical_id = c2.canonical_id) :
    mergeCitations sim [c1, c2] [] = [c1] ∧
      mergeCitations sim [c1] [c2] = [c1] := by
  constructor
  · unfold mergeCitations deduplicateCitations
    simp [dedupStep, Finset.mem_insert, h, sortStable, insertStable]
  · unfold mergeCitations deduplicateCitations
    have hov : hasCitationOverlap sim c2 [c1] = true :=
      List.any_eq_true.mpr ⟨c1, by simp, by simp [h]⟩
    simp [hov, dedupStep, sortStable, insertStable]

/-- Witness for the amended C1 theorem at concrete citations. -/
theorem merge_same_id_keeps_first_witness :
    mergeCitations simpleSimilarity
        [⟨"Decree-Law No. 47 of 2022", "fed_decree_law_47_2022", 1, 0.80, "regex"⟩,
         ⟨"Federal Decree-Law No. (47) of 2022", "fed_decree_law_47_2022", 2, 0.90,
           "ai"⟩] []
      = [⟨"Decree-Law No. 47 of 2022", "fed_decree_law_47_2022", 1, 0.80, "regex"⟩] ∧
    mergeCitations simpleSimilarity
        [⟨"Decree-Law No. 47 of 2022", "fed_decree_law_47_2022", 1, 0.80, "regex"⟩]
        [⟨"Federal Decree-Law No. (47) of 2022", "fed_decree_law_47_2022", 2, 0.90,
          "ai"⟩]
      = [⟨"Decree-Law No. 47 of 2022", "fed_decree_law_47_2022", 1, 0.80, "regex"⟩] :=
  merge_same_id_keeps_first simpleSimilarity
    ⟨"Decree-Law No. 47 of 2022", "fed_decree_law_47_2022", 1, 0.80, "regex"⟩
    ⟨"Federal Decree-Law No. (47) of 2022", "fed_decree_law_47_2022", 2, 0.90, "ai"⟩
    rfl

/-- C8: (a) a cleaned citation found within the first 200 characters of the
header/footer-stripped page text with fewer than 50 characters of stripped
text before it (in particular with nothing before it) is classified as a
header artifact; (b) every citation emitted by the per-page extraction loop
was cleared by that classifier, so no header-classified candidate ever appears
in the extracted list. -/
theorem header_citations_filtered :
    (∀ (citation_text page_text : Str) (pos : Nat),
        findSub page_text citation_text = some pos → pos < 200 →
        (stripWs (page_text.take pos)).length < 50 →
        isHeaderCitation citation_text page_text = true) ∧
    (∀ (document_title : Str) (page : Page) (t : String),
        t ∈ (pageCitations document_title page).map Citation.text →
        isHeaderCitation t.data
          (removeHeadersFooters page.text.data page.page_num) = false) := by
  constructor
  · intro citation_text page_text pos hfind hpos hlen
    unfold isHeaderCitation
    rw [hfind]
    simp [hpos, hlen]
  · intro document_title page t hmem
    simp only [pageCitations, List.mem_map, List.mem_flatMap,
      List.mem_filterMap] at hmem
    obtain ⟨c, ⟨pattern, hpat, m, hm, hc⟩, rfl⟩ := hmem
    split_ifs at hc with h1 h2 h3
    have hceq := Option.some.inj hc
    subst hceq
    simpa using h3

set_option maxRecDepth 4000 in
/-- Witness for C8 at a concrete header artifact and a concrete surviving
citation. -/
theorem header_citations_filtered_witness :
    isHeaderCitation (("Federal Decree-Law No. (47) of 2022 on Tax").data)
        (("Federal Decree-Law No. (47) of 2022 on Tax").data) = true ∧
    isHeaderCitation (("Federal Decree-Law No. (47) of 2022 on Taxation").data)
        (removeHeadersFooters
          (("Having reviewed the Constitution of the Union and laws;\nFederal Decree-Law No. (47) of 2022 on Taxation.").data)
          1) = false :=
  ⟨header_citations_filtered.1
      (("Federal Decree-Law No. (47) of 2022 on Tax").data)
      (("Federal Decree-Law No. (47) of 2022 on Tax").data) 0
      (by decide) (by decide) (by decide),
   header_citations_filtered.2 []
      ⟨1, "Having reviewed the Constitution of the Union and laws;\nFederal Decree-Law No. (47) of 2022 on Taxation."⟩
      ("Federal Decree-Law No. (47) of 2022 on Taxation")
      (by decide)⟩
